import Mathlib

/-!
# Hand-Space: verification of the per-frame simulation loop

Shallow embedding of the core simulation in src/components/HandPhysicsGame.tsx
(types from src/types.ts).  JavaScript numbers are modelled as real numbers;
Math.hypot is the euclidean norm, and Math.cos/Math.sin of Math.atan2 are the
components of the unit contact normal (with the JS convention
atan2(0,0) = 0, i.e. normal (1,0) for coincident centers).

Non-determinism of the source is made explicit:
* Math.random() draws become input streams (one per purpose), consumed at
  explicitly threaded counters;
* object ids, produced in the source by Date.now() + Math.random() and relied
  upon only for uniqueness, are modelled by a monotone counter nextId;
* performance.now() is the per-frame input now (the source calls it several
  times per frame, always within the same frame).

Upstream vision components (hand/face landmark models) are collaborators: the
per-frame inputs are the derived hand signals (index/thumb tip pixel positions
after mirroring, the gun-pose boolean) and the derived mouth state, exactly the
quantities the loop body consumes.
-/

namespace HandSpace

open Classical

set_option maxHeartbeats 2000000

set_option maxRecDepth 4000

noncomputable section

/-! ## Geometry: Math.hypot and the contact normal -/

/-- Math.hypot dx dy. -/
def hyp (dx dy : ℝ) : ℝ := Real.sqrt (dx ^ 2 + dy ^ 2)

/-- Math.cos (Math.atan2 dy dx): x-component of the unit vector towards (dx,dy);
JS yields atan2(0,0) = 0, hence cos = 1 for the zero vector. -/
def ncos (dx dy : ℝ) : ℝ := if hyp dx dy = 0 then 1 else dx / hyp dx dy

/-- Math.sin (Math.atan2 dy dx). -/
def nsin (dx dy : ℝ) : ℝ := if hyp dx dy = 0 then 0 else dy / hyp dx dy

lemma hyp_nonneg (dx dy : ℝ) : 0 ≤ hyp dx dy := Real.sqrt_nonneg _

lemma hyp_eq_zero_iff (dx dy : ℝ) : hyp dx dy = 0 ↔ dx = 0 ∧ dy = 0 := by
  unfold hyp
  rw [Real.sqrt_eq_zero (by positivity)]
  constructor
  · intro h
    constructor
    · nlinarith [sq_nonneg dx, sq_nonneg dy]
    · nlinarith [sq_nonneg dx, sq_nonneg dy]
  · rintro ⟨h1, h2⟩; simp [h1, h2]

lemma hyp_axis (a : ℝ) : hyp a 0 = |a| := by
  unfold hyp; simp [Real.sqrt_sq_eq_abs]

lemma hyp_axis_y (a : ℝ) : hyp 0 a = |a| := by
  unfold hyp; simp [Real.sqrt_sq_eq_abs]

lemma hyp_smul (c dx dy : ℝ) : hyp (c * dx) (c * dy) = |c| * hyp dx dy := by
  unfold hyp
  rw [mul_pow, mul_pow, ← mul_add, Real.sqrt_mul (sq_nonneg c), Real.sqrt_sq_eq_abs]

/-! ## Data model (src/types.ts) -/

/-- PhysicsObject.  grabbedByHandIndex uses Option for the source null. -/
structure Obj where
  id : ℕ
  x : ℝ
  y : ℝ
  vx : ℝ
  vy : ℝ
  radius : ℝ
  color : String
  isGrabbed : Bool
  grabbedByHandIndex : Option ℕ
  wobblePhase : ℝ
  createdAt : ℝ
  deriving DecidableEq

/-- GameSettings (src/types.ts). -/
structure GameSettings where
  gravity : ℝ
  friction : ℝ
  bounce : ℝ
  pinchThreshold : ℝ
  throwForce : ℝ
  handColor : String
  showSkeleton : Bool
  debug : Bool
  enableCollisions : Bool
  fusionChance : ℝ
  blobFactor : ℝ

/-- The grab state of an object, read off the isGrabbed/grabbedByHandIndex pair
exactly as the source interprets it (null hand index while grabbed = shared). -/
inductive GrabState where
  | ungrabbed : GrabState
  | grabbedBy : ℕ → GrabState
  | shared : GrabState
  deriving DecidableEq

def grabStateOf (o : Obj) : GrabState :=
  if o.isGrabbed then
    match o.grabbedByHandIndex with
    | none => GrabState.shared
    | some i => GrabState.grabbedBy i
  else GrabState.ungrabbed

/-- Raw per-hand signals consumed by the loop body: index and thumb tip in
pixel space after mirroring, and the gun-pose classification. -/
structure HandRaw where
  ix : ℝ
  iy : ℝ
  tx : ℝ
  ty : ℝ
  isGun : Bool

/-- The entry stored into handPositions for one hand. -/
structure HandSig where
  x : ℝ
  y : ℝ
  pinching : Bool
  gun : Bool
  tipX : ℝ
  tipY : ℝ
  velY : ℝ

structure Mouth where
  centerX : ℝ
  centerY : ℝ
  width : ℝ
  isOpen : Bool

structure Pt where
  x : ℝ
  y : ℝ

/-- One attempt's worth of Math.random() draws inside spawnObjects. -/
structure SpawnRnd where
  rx : ℝ
  ry : ℝ
  rr : ℝ
  rvx : ℝ
  rvy : ℝ
  rcol : Fin 8
  rphase : ℝ

/-- Per-frame external input. -/
structure FrameInput where
  hands : List HandRaw
  mouth : Mouth
  now : ℝ
  width : ℝ
  height : ℝ
  rngS : ℕ → SpawnRnd
  rngF : ℕ → ℝ

/-- The persistent refs of the component. -/
structure SimState where
  objects : List Obj
  prevHandPos : ℕ → Option Pt
  wasPinching : ℕ → Bool
  lastShot : ℝ
  nextId : ℕ

/-! ## spawnObjects (HandPhysicsGame.tsx lines 49-108) -/

def spawnColors : List String :=
  ["#f43f5e", "#3b82f6", "#eab308", "#a855f7", "#ec4899", "#06b6d4", "#10b981", "#f97316"]

/-- colors[Math.floor(Math.random() * colors.length)]. -/
def spawnColor (i : Fin 8) : String := spawnColors.get (Fin.cast (by rfl) i)

/-- The object pushed by one successful spawn attempt. -/
def mkSpawned (nid : ℕ) (now : ℝ) (r : SpawnRnd) (fx fy : ℝ) (vx? vy? : Option ℝ)
    (finalRadius : ℝ) (color? : Option String) (grabbedBy? : Option ℕ) : Obj :=
  { id := nid
    x := fx
    y := fy
    vx := vx?.getD ((r.rvx - 0.5) * 6)
    vy := vy?.getD ((r.rvy - 0.5) * 6)
    radius := finalRadius
    color := color?.getD (spawnColor r.rcol)
    isGrabbed := grabbedBy?.isSome
    grabbedByHandIndex := grabbedBy?
    wobblePhase := r.rphase * (2 * Real.pi)
    createdAt := now }

/-- The placement rejection test of one candidate against a list
(dist < obj.radius + finalRadius + 5 rejects). -/
def safeAgainst (fx fy fr : ℝ) (objs : List Obj) : Prop :=
  ∀ o ∈ objs, ¬ hyp (o.x - fx) (o.y - fy) < o.radius + fr + 5

/-- The while loop of spawnObjects; fuel is the remaining attempt budget
(totalAttempts < maxAttempts), t the index into the random stream. -/
def spawnLoop (w h now : ℝ) (rngS : ℕ → SpawnRnd) (existing : List Obj) (count : ℕ)
    (x? y? vx? vy? radius? : Option ℝ) (color? : Option String) (grabbedBy? : Option ℕ) :
    ℕ → List Obj → ℕ → ℕ → List Obj × ℕ × ℕ
  | 0, acc, nid, t => (acc, nid, t)
  | fuel + 1, acc, nid, t =>
    if acc.length < count then
      let r := rngS t
      let finalRadius := radius?.getD (20 + r.rr * 25)
      if x?.isNone ∨ y?.isNone then
        let fx := r.rx * (w - 200) + 100
        let fy := r.ry * (h - 200) + 100
        if safeAgainst fx fy finalRadius existing ∧ safeAgainst fx fy finalRadius acc then
          spawnLoop w h now rngS existing count x? y? vx? vy? radius? color? grabbedBy?
            fuel (acc ++ [mkSpawned nid now r fx fy vx? vy? finalRadius color? grabbedBy?]) (nid + 1) (t + 1)
        else
          spawnLoop w h now rngS existing count x? y? vx? vy? radius? color? grabbedBy?
            fuel acc nid (t + 1)
      else
        spawnLoop w h now rngS existing count x? y? vx? vy? radius? color? grabbedBy?
          fuel (acc ++ [mkSpawned nid now r (x?.getD 0) (y?.getD 0) vx? vy? finalRadius color? grabbedBy?]) (nid + 1) (t + 1)
    else (acc, nid, t)

/-- spawnObjects: returns the freshly spawned batch (the source appends it to
objectsRef.current), the next fresh id and the next random index. -/
def spawnObjects (w h now : ℝ) (rngS : ℕ → SpawnRnd) (existing : List Obj) (count : ℕ)
    (x? y? vx? vy? radius? : Option ℝ) (color? : Option String) (grabbedBy? : Option ℕ)
    (nid t : ℕ) : List Obj × ℕ × ℕ :=
  spawnLoop w h now rngS existing count x? y? vx? vy? radius? color? grabbedBy?
    (count * 50) [] nid t

/-! ## Hand pass (lines 344-418): signals, magician spawn, gun shot -/

/-- Trace events: the actions of the interaction resolver, recorded in the
order the source executes them. -/
inductive Ev where
  | spawnMouth : ℕ → Ev
  | spawnGun : ℕ → Ev
  | doubleGrab : Ev
  | singleHand : Ev
  | cleanup : Ev
  | recordPrev : Ev
  deriving DecidableEq

def Ev.isSpawn : Ev → Bool
  | Ev.spawnMouth _ => true
  | Ev.spawnGun _ => true
  | _ => false

def Ev.isGrabStep : Ev → Bool
  | Ev.doubleGrab => true
  | Ev.singleHand => true
  | Ev.cleanup => true
  | _ => false

/-- handPositions[handIndex] (lines 349-370). -/
def mkSig (s : GameSettings) (prev : ℕ → Option Pt) (i : ℕ) (hr : HandRaw) : HandSig :=
  let pinchX := (hr.ix + hr.tx) / 2
  let pinchY := (hr.iy + hr.ty) / 2
  let pinchDist := hyp (hr.ix - hr.tx) (hr.iy - hr.ty)
  { x := pinchX
    y := pinchY
    pinching := pinchDist < s.pinchThreshold
    gun := hr.isGun
    tipX := hr.ix
    tipY := hr.iy
    velY := match prev i with
      | some p => pinchY - p.y
      | none => 0 }

/-- Accumulated state of the per-hand forEach. -/
structure HPSt where
  spawned : List Obj
  sigs : List HandSig
  wasPinching : ℕ → Bool
  lastShot : ℝ
  nid : ℕ
  t : ℕ
  events : List Ev

/-- Body of handResult.landmarks.forEach (lines 348-417), restricted to the
state-relevant actions (skeleton drawing elided). snapshot is the objects
array captured at line 342; spawn calls see snapshot ++ already spawned. -/
def handStep (s : GameSettings) (inp : FrameInput) (snapshot : List Obj)
    (prev : ℕ → Option Pt) (i : ℕ) (hr : HandRaw) (st : HPSt) : HPSt :=
  let sig := mkSig s prev i hr
  -- 1. MAGICIAN SPAWN (lines 395-401)
  let st1 :=
    if inp.mouth.isOpen ∧ sig.pinching ∧ ¬ st.wasPinching i ∧
        hyp (sig.x - inp.mouth.centerX) (sig.y - inp.mouth.centerY) < inp.mouth.width * 2 then
      let res := spawnObjects inp.width inp.height inp.now inp.rngS (snapshot ++ st.spawned) 1
        (some sig.x) (some sig.y) (some 0) (some 0) (some 45) none (some i) st.nid st.t
      { st with spawned := st.spawned ++ res.1, nid := res.2.1, t := res.2.2,
                events := st.events ++ [Ev.spawnMouth i] }
    else st
  -- 2. GUN GESTURE SHOOTING (lines 403-414)
  let st2 :=
    if hr.isGun ∧ sig.velY < -15 ∧ inp.now - st1.lastShot > 300 then
      let res := spawnObjects inp.width inp.height inp.now inp.rngS (snapshot ++ st1.spawned) 1
        (some hr.ix) (some hr.iy) (some 0) (some (-25)) (some 10) (some "#FFD700") none st1.nid st1.t
      { st1 with spawned := st1.spawned ++ res.1, nid := res.2.1, t := res.2.2,
                 lastShot := inp.now,
                 events := st1.events ++ [Ev.spawnGun i] }
    else st1
  -- line 416
  { st2 with wasPinching := Function.update st2.wasPinching i sig.pinching,
             sigs := st2.sigs ++ [sig] }

def handLoop (s : GameSettings) (inp : FrameInput) (snapshot : List Obj)
    (prev : ℕ → Option Pt) : List HandRaw → ℕ → HPSt → HPSt
  | [], _, st => st
  | hr :: rest, i, st =>
    handLoop s inp snapshot prev rest (i + 1) (handStep s inp snapshot prev i hr st)

def handPass (s : GameSettings) (inp : FrameInput) (st : SimState) : HPSt :=
  handLoop s inp st.objects st.prevHandPos inp.hands 0
    { spawned := [], sigs := [], wasPinching := st.wasPinching,
      lastShot := st.lastShot, nid := st.nextId, t := 0, events := [] }

/-! ## Double grab (lines 424-465) -/

/-- The shared-grab qualification test for one object (line 442). -/
def dgCond (h0 h1 : HandSig) (o : Obj) : Prop :=
  let d0 := hyp (o.x - h0.x) (o.y - h0.y)
  let d1 := hyp (o.x - h1.x) (o.y - h1.y)
  let grabRadius := o.radius + 40
  (d0 < grabRadius ∧ d1 < grabRadius) ∨
    ((o.isGrabbed ∧ o.grabbedByHandIndex = some 0) ∧ d1 < grabRadius) ∨
    ((o.isGrabbed ∧ o.grabbedByHandIndex = some 1) ∧ d0 < grabRadius)

/-- Force logic + resize for a qualifying object (lines 445-462). -/
def dgApply (h0 h1 : HandSig) (prev : ℕ → Option Pt) (currentDist : ℝ) (o : Obj) : Obj :=
  let o1 := { o with isGrabbed := true, grabbedByHandIndex := none,
                     x := (h0.x + h1.x) / 2, y := (h0.y + h1.y) / 2,
                     vx := 0, vy := 0 }
  match prev 0, prev 1 with
  | some p0, some p1 =>
    let prevDist := hyp (p1.x - p0.x) (p1.y - p0.y)
    let delta := currentDist - prevDist
    let r1 := o1.radius + delta * 0.6
    let r2 := if r1 < 15 then 15 else r1
    let r3 := if r2 > 150 then 150 else r2
    { o1 with radius := r3 }
  | _, _ => o1

def dgTransform (h0 h1 : HandSig) (prev : ℕ → Option Pt) (currentDist : ℝ) (o : Obj) : Obj :=
  if dgCond h0 h1 o then dgApply h0 h1 prev currentDist o else o

/-- Step 1 of grab resolution: returns the updated objects and the ids in
currentDoubleGrabs.  The per-object body reads only that object and the hand
signals, so the forEach is a pointwise map. -/
def doubleGrabStep (sigs : List HandSig) (prev : ℕ → Option Pt)
    (objs : List Obj) : List Obj × List ℕ :=
  match sigs.get? 0, sigs.get? 1 with
  | some h0, some h1 =>
    if h0.pinching ∧ h1.pinching then
      let currentDist := hyp (h1.x - h0.x) (h1.y - h0.y)
      (objs.map (dgTransform h0 h1 prev currentDist),
       (objs.filter (fun o => decide (dgCond h0 h1 o))).map (fun o => o.id))
    else (objs, [])
  | _, _ => (objs, [])

/-! ## Single hand logic (lines 467-512) -/

/-- Per-object body of the pinching branch (lines 478-499). -/
def shPinch (s : GameSettings) (dg : List ℕ) (h : HandSig) (p : Pt) (i : ℕ) (o : Obj) : Obj :=
  if o.id ∈ dg then o
  else if o.isGrabbed ∧ o.grabbedByHandIndex = some i then
    { o with x := h.x, y := h.y,
             vx := (h.x - p.x) * s.throwForce, vy := (h.y - p.y) * s.throwForce }
  else if o.isGrabbed ∧ o.grabbedByHandIndex ≠ none ∧ o.grabbedByHandIndex ≠ some i then o
  else if hyp (o.x - h.x) (o.y - h.y) < o.radius + 40 then
    { o with isGrabbed := true, grabbedByHandIndex := some i }
  else o

/-- Per-object body of the release branch (lines 501-509). -/
def shRelease (dg : List ℕ) (i : ℕ) (o : Obj) : Obj :=
  if o.isGrabbed ∧ o.grabbedByHandIndex = some i ∧ o.id ∉ dg then
    { o with isGrabbed := false, grabbedByHandIndex := none }
  else o

def shLoop (s : GameSettings) (dg : List ℕ) (prev : ℕ → Option Pt) :
    List HandSig → ℕ → List Obj → List Obj
  | [], _, objs => objs
  | h :: rest, i, objs =>
    let objs1 :=
      match prev i with
      | none => objs
      | some p =>
        if h.pinching then objs.map (shPinch s dg h p i)
        else objs.map (shRelease dg i)
    shLoop s dg prev rest (i + 1) objs1

def singleHandStep (s : GameSettings) (dg : List ℕ) (sigs : List HandSig)
    (prev : ℕ → Option Pt) (objs : List Obj) : List Obj :=
  shLoop s dg prev sigs 0 objs

/-! ## Stale shared-grab cleanup (lines 514-524) and prev recording (527-528) -/

def cleanupOne (dg : List ℕ) (o : Obj) : Obj :=
  if o.grabbedByHandIndex = none ∧ o.isGrabbed ∧ o.id ∉ dg then
    { o with isGrabbed := false }
  else o

def cleanupStep (dg : List ℕ) (objs : List Obj) : List Obj := objs.map (cleanupOne dg)

def recordPrev (sigs : List HandSig) (prev : ℕ → Option Pt) : ℕ → Option Pt :=
  fun i => match sigs.get? i with
    | some h => some { x := h.x, y := h.y }
    | none => prev i

/-! ## The interaction resolver: one frame of lines 344-528 -/

structure ResolveOut where
  store : List Obj
  dg : List ℕ
  prevHandPos : ℕ → Option Pt
  wasPinching : ℕ → Bool
  lastShot : ℝ
  nextId : ℕ
  t : ℕ
  trace : List Ev

/-- The interaction resolution of one frame, in source order: the hand pass
(signals + gesture-triggered spawns, lines 344-418), double-grab detection
(424-465), single-hand logic (467-512), stale cleanup (514-524), previous-
position recording (527-528).  Spawned objects are appended to the store but
are not in the snapshot the grab steps iterate, exactly as in the source. -/
def interactionResolve (s : GameSettings) (st : SimState) (inp : FrameInput) : ResolveOut :=
  let snapshot := st.objects
  let hp := handPass s inp st
  let d := doubleGrabStep hp.sigs st.prevHandPos snapshot
  let objs2 := singleHandStep s d.2 hp.sigs st.prevHandPos d.1
  let objs3 := cleanupStep d.2 objs2
  { store := objs3 ++ hp.spawned
    dg := d.2
    prevHandPos := recordPrev hp.sigs st.prevHandPos
    wasPinching := hp.wasPinching
    lastShot := hp.lastShot
    nextId := hp.nid
    t := hp.t
    trace := hp.events ++ [Ev.doubleGrab, Ev.singleHand, Ev.cleanup, Ev.recordPrev] }

/-! ## Collision pass (lines 531-596) -/

/-- The j-loop body (lines 534-592) on one pair: returns the updated pair, the
updated removal schedule and the fusion-random index. -/
def collideStep (s : GameSettings) (now : ℝ) (rngF : ℕ → ℝ) (o1 o2 : Obj)
    (rem : List ℕ) (t : ℕ) : Obj × Obj × List ℕ × ℕ :=
  if o1.isGrabbed ∨ o2.isGrabbed ∨ o1.id ∈ rem ∨ o2.id ∈ rem then (o1, o2, rem, t)
  else
    let dx := o2.x - o1.x
    let dy := o2.y - o1.y
    let dist := hyp dx dy
    let minDist := o1.radius + o2.radius
    if dist < minDist then
      let canFuse := s.fusionChance > 0 ∧ rngF t < s.fusionChance ∧
        now - o1.createdAt > 2000 ∧ now - o2.createdAt > 2000
      let t1 := if s.fusionChance > 0 then t + 1 else t
      if canFuse then
        if o1.radius ≥ o2.radius then
          ({ o1 with radius := o1.radius + o2.radius * 0.4 }, o2, o2.id :: rem, t1)
        else
          (o1, { o2 with radius := o2.radius + o1.radius * 0.4 }, o1.id :: rem, t1)
      else
        let c := ncos dx dy
        let sn := nsin dx dy
        let overlap := (minDist - dist) + 1
        let separationX := (overlap / 2) * c
        let separationY := (overlap / 2) * sn
        let o1p := { o1 with x := o1.x - separationX, y := o1.y - separationY }
        let o2p := { o2 with x := o2.x + separationX, y := o2.y + separationY }
        let vx1 := o1p.vx * c + o1p.vy * sn
        let vy1 := o1p.vy * c - o1p.vx * sn
        let vx2 := o2p.vx * c + o2p.vy * sn
        let vy2 := o2p.vy * c - o2p.vx * sn
        let vx1Final := ((o1p.radius - o2p.radius) * vx1 + 2 * o2p.radius * vx2) / (o1p.radius + o2p.radius)
        let vx2Final := ((o2p.radius - o1p.radius) * vx2 + 2 * o1p.radius * vx1) / (o1p.radius + o2p.radius)
        let o1n := { o1p with vx := (vx1Final * c - vy1 * sn) * s.bounce,
                              vy := (vy1 * c + vx1Final * sn) * s.bounce }
        let o2n := { o2p with vx := (vx2Final * c - vy2 * sn) * s.bounce,
                              vy := (vy2 * c + vx2Final * sn) * s.bounce }
        (o1n, o2n, rem, t1)
    else (o1, o2, rem, t)

/-- The j-loop (for j = i+1 ...): the running o1 against the tail in order. -/
def collideOne (s : GameSettings) (now : ℝ) (rngF : ℕ → ℝ) :
    Obj → List Obj → List ℕ → ℕ → Obj × List Obj × List ℕ × ℕ
  | o1, [], rem, t => (o1, [], rem, t)
  | o1, o2 :: rest, rem, t =>
    let st := collideStep s now rngF o1 o2 rem t
    let r := collideOne s now rngF st.1 rest st.2.2.1 st.2.2.2
    (r.1, st.2.1 :: r.2.1, r.2.2)

lemma collideOne_tail_length (s : GameSettings) (now : ℝ) (rngF : ℕ → ℝ) :
    ∀ (rest : List Obj) (o1 : Obj) (rem : List ℕ) (t : ℕ),
      ((collideOne s now rngF o1 rest rem t).2.1).length = rest.length := by
  intro rest
  induction rest with
  | nil => intro o1 rem t; simp [collideOne]
  | cons o2 rest2 ih =>
    intro o1 rem t
    rw [collideOne]
    simp [ih]

/-- The i-loop: each object is resolved against all later ones in order. -/
def collidePass (s : GameSettings) (now : ℝ) (rngF : ℕ → ℝ) :
    List Obj → List ℕ → ℕ → List Obj × List ℕ × ℕ
  | [], rem, t => ([], rem, t)
  | o :: rest, rem, t =>
    let r := collideOne s now rngF o rest rem t
    let rr := collidePass s now rngF r.2.1 r.2.2.1 r.2.2.2
    (r.1 :: rr.1, rr.2)
termination_by objs _ _ => objs.length
decreasing_by simp [collideOne_tail_length]

/-! ## Movement, walls, eating (lines 598-641) -/

/-- Free-body integration and wall bounces (lines 602-626). -/
def integrateObj (s : GameSettings) (w h : ℝ) (o : Obj) : Obj :=
  let vy0 := o.vy + s.gravity
  let x1 := o.x + o.vx
  let y1 := o.y + vy0
  let vx1 := o.vx * s.friction
  let vy1 := vy0 * s.friction
  let a := if x1 - o.radius < 0 then (o.radius, |vx1| * s.bounce) else (x1, vx1)
  let b := if a.1 + o.radius > w then (w - o.radius, -|a.2| * s.bounce) else a
  let cc := if y1 - o.radius < 0 then (o.radius, |vy1| * s.bounce) else (y1, vy1)
  let dd := if cc.1 + o.radius > h then (h - o.radius, -|cc.2| * s.bounce) else cc
  { o with x := b.1, y := dd.1, vx := b.2, vy := dd.2 }

/-- The movement-and-eating forEach (lines 599-637); drawing elided.  Objects
already scheduled for removal are skipped entirely (line 600). -/
def moveAndEat (s : GameSettings) (w h now : ℝ) (m : Mouth) :
    List Obj → List ℕ → List Obj × List ℕ
  | [], rem => ([], rem)
  | o :: rest, rem =>
    if o.id ∈ rem then
      let r := moveAndEat s w h now m rest rem
      (o :: r.1, r.2)
    else
      let o1 := if o.isGrabbed then o else integrateObj s w h o
      let rem1 :=
        if m.isOpen ∧ ¬ o.isGrabbed ∧ now - o.createdAt > 2000 ∧
            hyp (o1.x - m.centerX) (o1.y - m.centerY) < m.width / 2 then
          o.id :: rem
        else rem
      let r := moveAndEat s w h now m rest rem1
      (o1 :: r.1, r.2)

/-- Lines 639-641: one filter applying the union of all scheduled removals. -/
def applyRemovals (objs : List Obj) (rem : List ℕ) : List Obj :=
  objs.filter (fun o => o.id ∉ rem)

/-- Line 531: the collision pass runs only when enableCollisions is set. -/
def collideGate (s : GameSettings) (inp : FrameInput) (snapshot : List Obj) :
    List Obj × List ℕ × ℕ :=
  if s.enableCollisions then collidePass s inp.now inp.rngF snapshot [] 0
  else (snapshot, [], 0)

/-- The physics step over the snapshot part of the store (collision pass gated
by enableCollisions, then movement/eating), ending in the single removal
filter over the whole store (snapshot ++ spawned). -/
def physicsStep (s : GameSettings) (inp : FrameInput) (snapshot spawned : List Obj) :
    List Obj :=
  let c := collideGate s inp snapshot
  let me := moveAndEat s inp.width inp.height inp.now inp.mouth c.1 c.2.1
  applyRemovals (me.1 ++ spawned) me.2

/-- INITIAL_SETTINGS (lines 16-28). -/
def initialSettings : GameSettings :=
  { gravity := 0
    friction := 0.995
    bounce := 0.9
    pinchThreshold := 60
    throwForce := 1.5
    handColor := "#00ff9d"
    showSkeleton := true
    debug := false
    enableCollisions := true
    fusionChance := 0
    blobFactor := 5 }

/-! ## Claim C3: fusion is impossible when fusionChance = 0 -/

lemma collideStep_no_fusion (s : GameSettings) (now : ℝ) (rngF : ℕ → ℝ)
    (h : s.fusionChance = 0) (o1 o2 : Obj) (rem : List ℕ) (t : ℕ) :
    (collideStep s now rngF o1 o2 rem t).2.2.1 = rem ∧
    (collideStep s now rngF o1 o2 rem t).1.id = o1.id ∧
    (collideStep s now rngF o1 o2 rem t).1.radius = o1.radius ∧
    (collideStep s now rngF o1 o2 rem t).2.1.id = o2.id ∧
    (collideStep s now rngF o1 o2 rem t).2.1.radius = o2.radius := by
  unfold collideStep
  dsimp only
  split_ifs <;> simp_all

lemma collideOne_no_fusion (s : GameSettings) (now : ℝ) (rngF : ℕ → ℝ)
    (h : s.fusionChance = 0) :
    ∀ (rest : List Obj) (o1 : Obj) (rem : List ℕ) (t : ℕ),
      (collideOne s now rngF o1 rest rem t).2.2.1 = rem ∧
      (collideOne s now rngF o1 rest rem t).1.id = o1.id ∧
      (collideOne s now rngF o1 rest rem t).1.radius = o1.radius ∧
      ((collideOne s now rngF o1 rest rem t).2.1).map (fun o => (o.id, o.radius)) =
        rest.map (fun o => (o.id, o.radius)) := by
  intro rest
  induction rest with
  | nil => intro o1 rem t; simp [collideOne]
  | cons o2 rest2 ih =>
    intro o1 rem t
    rw [collideOne]
    have hs := collideStep_no_fusion s now rngF h o1 o2 rem t
    have hi := ih (collideStep s now rngF o1 o2 rem t).1 rem
      (collideStep s now rngF o1 o2 rem t).2.2.2
    simp only [hs.1]
    simp [hi, hs.2.1, hs.2.2.1, hs.2.2.2.1, hs.2.2.2.2]

lemma collidePass_no_fusion (s : GameSettings) (now : ℝ) (rngF : ℕ → ℝ)
    (h : s.fusionChance = 0) :
    ∀ (n : ℕ) (objs : List Obj), objs.length ≤ n → ∀ (rem : List ℕ) (t : ℕ),
      (collidePass s now rngF objs rem t).2.1 = rem ∧
      ((collidePass s now rngF objs rem t).1).map (fun o => (o.id, o.radius)) =
        objs.map (fun o => (o.id, o.radius)) := by
  intro n
  induction n with
  | zero =>
    intro objs hl rem t
    have : objs = [] := List.length_eq_zero.mp (Nat.le_zero.mp hl)
    subst this
    simp [collidePass]
  | succ n ih =>
    intro objs hl rem t
    match objs with
    | [] => simp [collidePass]
    | o :: rest =>
      rw [collidePass]
      have h1 := collideOne_no_fusion s now rngF h rest o rem t
      have hlen : ((collideOne s now rngF o rest rem t).2.1).length ≤ n := by
        rw [collideOne_tail_length]
        exact Nat.le_of_succ_le_succ hl
      have h2 := ih ((collideOne s now rngF o rest rem t).2.1) hlen
        ((collideOne s now rngF o rest rem t).2.2.1)
        ((collideOne s now rngF o rest rem t).2.2.2)
      simp only at h2 ⊢
      constructor
      · rw [h2.1, h1.1]
      · simp only [List.map_cons]
        rw [h2.2, h1.2.2.2]
        simp [h1.2.1, h1.2.2.1]

/-- C3: whenever fusionChance = 0, the collision pass of a frame schedules no
removal and changes no radius (hence no fusion occurs for any overlapping
pair), regardless of the values of the random draws. -/
theorem C3_no_fusion_when_chance_zero (s : GameSettings) (now : ℝ) (rngF : ℕ → ℝ)
    (objs : List Obj) (rem : List ℕ) (t : ℕ) (h : s.fusionChance = 0) :
    (collidePass s now rngF objs rem t).2.1 = rem ∧
    ((collidePass s now rngF objs rem t).1).map (fun o => (o.id, o.radius)) =
      objs.map (fun o => (o.id, o.radius)) :=
  collidePass_no_fusion s now rngF h objs.length objs le_rfl rem t

/-- C3 witness: the default settings disable fusion; two overlapping objects
produce no scheduled removal and keep their radii. -/
theorem C3_no_fusion_when_chance_zero_witness :
    (collidePass initialSettings 3000 (fun _ => 0)
        [{ id := 1, x := 0, y := 0, vx := 0, vy := 0, radius := 10, color := "#fff",
           isGrabbed := false, grabbedByHandIndex := none, wobblePhase := 0, createdAt := 0 },
         { id := 2, x := 15, y := 0, vx := 0, vy := 0, radius := 10, color := "#fff",
           isGrabbed := false, grabbedByHandIndex := none, wobblePhase := 0, createdAt := 0 }]
        [] 0).2.1 = [] ∧
    ((collidePass initialSettings 3000 (fun _ => 0)
        [{ id := 1, x := 0, y := 0, vx := 0, vy := 0, radius := 10, color := "#fff",
           isGrabbed := false, grabbedByHandIndex := none, wobblePhase := 0, createdAt := 0 },
         { id := 2, x := 15, y := 0, vx := 0, vy := 0, radius := 10, color := "#fff",
           isGrabbed := false, grabbedByHandIndex := none, wobblePhase := 0, createdAt := 0 }]
        [] 0).1).map (fun o => (o.id, o.radius)) = [(1, 10), (2, 10)] := by
  have h := C3_no_fusion_when_chance_zero initialSettings 3000 (fun _ => 0)
    [{ id := 1, x := 0, y := 0, vx := 0, vy := 0, radius := 10, color := "#fff",
       isGrabbed := false, grabbedByHandIndex := none, wobblePhase := 0, createdAt := 0 },
     { id := 2, x := 15, y := 0, vx := 0, vy := 0, radius := 10, color := "#fff",
       isGrabbed := false, grabbedByHandIndex := none, wobblePhase := 0, createdAt := 0 }]
    [] 0 (by norm_num [initialSettings])
  refine ⟨h.1, ?_⟩
  rw [h.2]
  simp

/-! ## Claim C10: fusion tie-break favors the earlier object -/

/-- C10: in the fusion branch, when the two radii are exactly equal the first
operand of the pair (the object earlier in store order) absorbs 0.4 times the
radius of the second, and the second is the one scheduled for removal. -/
theorem C10_fusion_tie_break (s : GameSettings) (now : ℝ) (rngF : ℕ → ℝ)
    (o1 o2 : Obj) (rem : List ℕ) (t : ℕ)
    (hg1 : o1.isGrabbed = false) (hg2 : o2.isGrabbed = false)
    (hr1 : o1.id ∉ rem) (hr2 : o2.id ∉ rem) (hne : o1.id ≠ o2.id)
    (hov : hyp (o2.x - o1.x) (o2.y - o1.y) < o1.radius + o2.radius)
    (hc : s.fusionChance > 0) (hd : rngF t < s.fusionChance)
    (ha1 : now - o1.createdAt > 2000) (ha2 : now - o2.createdAt > 2000)
    (heq : o1.radius = o2.radius) :
    (collideStep s now rngF o1 o2 rem t).1.radius = o1.radius + o2.radius * 0.4 ∧
    (collideStep s now rngF o1 o2 rem t).1.id = o1.id ∧
    (collideStep s now rngF o1 o2 rem t).2.1 = o2 ∧
    o2.id ∈ (collideStep s now rngF o1 o2 rem t).2.2.1 ∧
    o1.id ∉ (collideStep s now rngF o1 o2 rem t).2.2.1 := by
  unfold collideStep
  rw [if_neg (by simp [hg1, hg2, hr1, hr2])]
  simp only
  rw [if_pos hov, if_pos ⟨hc, hd, ha1, ha2⟩, if_pos (le_of_eq heq.symm)]
  refine ⟨rfl, rfl, rfl, by simp, ?_⟩
  simp [hne, hr1]

/-- C10 witness: equal radii 10, centers 15 apart, fusion draw succeeding. -/
theorem C10_fusion_tie_break_witness :
    (collideStep { initialSettings with fusionChance := 0.5 } 3000 (fun _ => 0.1)
        { id := 1, x := 0, y := 0, vx := 0, vy := 0, radius := 10, color := "#fff",
          isGrabbed := false, grabbedByHandIndex := none, wobblePhase := 0, createdAt := 0 }
        { id := 2, x := 15, y := 0, vx := 0, vy := 0, radius := 10, color := "#fff",
          isGrabbed := false, grabbedByHandIndex := none, wobblePhase := 0, createdAt := 0 }
        [] 0).1.radius = 14 ∧
    (2 : ℕ) ∈ (collideStep { initialSettings with fusionChance := 0.5 } 3000 (fun _ => 0.1)
        { id := 1, x := 0, y := 0, vx := 0, vy := 0, radius := 10, color := "#fff",
          isGrabbed := false, grabbedByHandIndex := none, wobblePhase := 0, createdAt := 0 }
        { id := 2, x := 15, y := 0, vx := 0, vy := 0, radius := 10, color := "#fff",
          isGrabbed := false, grabbedByHandIndex := none, wobblePhase := 0, createdAt := 0 }
        [] 0).2.2.1 := by
  have h := C10_fusion_tie_break { initialSettings with fusionChance := 0.5 } 3000 (fun _ => 0.1)
    { id := 1, x := 0, y := 0, vx := 0, vy := 0, radius := 10, color := "#fff",
      isGrabbed := false, grabbedByHandIndex := none, wobblePhase := 0, createdAt := 0 }
    { id := 2, x := 15, y := 0, vx := 0, vy := 0, radius := 10, color := "#fff",
      isGrabbed := false, grabbedByHandIndex := none, wobblePhase := 0, createdAt := 0 }
    [] 0 rfl rfl (by simp) (by simp) (by norm_num)
    (by rw [show (15:ℝ) - 0 = 15 by norm_num, show (0:ℝ) - 0 = 0 by norm_num, hyp_axis]; norm_num)
    (by norm_num) (by norm_num) (by norm_num) (by norm_num) (by norm_num)
  refine ⟨?_, h.2.2.2.1⟩
  rw [h.1]; norm_num

/-! ## Claim C9: spawn placement bounds -/

/-- A concrete random record for witnesses. -/
def cRnd : SpawnRnd :=
  { rx := 0.5, ry := 0.5, rr := 0.5, rvx := 0.5, rvy := 0.5, rcol := 0, rphase := 0 }

section SpawnLemmas

variable (w h now : ℝ) (rngS : ℕ → SpawnRnd) (existing : List Obj) (count : ℕ)
variable (x? y? vx? vy? radius? : Option ℝ) (color? : Option String) (grabbedBy? : Option ℕ)

lemma spawnLoop_rand_le :
    ∀ (fuel : ℕ) (acc : List Obj) (nid t : ℕ),
      (spawnLoop w h now rngS existing count x? y? vx? vy? radius? color? grabbedBy?
        fuel acc nid t).2.2 ≤ t + fuel := by
  intro fuel
  induction fuel with
  | zero => intro acc nid t; rw [spawnLoop]; exact Nat.le_add_right t 0
  | succ fuel ih =>
    intro acc nid t
    rw [spawnLoop]
    dsimp only
    split_ifs
    · exact le_trans (ih _ _ _) (by omega)
    · exact le_trans (ih _ _ _) (by omega)
    · exact le_trans (ih _ _ _) (by omega)
    · exact Nat.le_add_right t (fuel + 1)

lemma spawnLoop_length_le :
    ∀ (fuel : ℕ) (acc : List Obj) (nid t : ℕ), acc.length ≤ count →
      (spawnLoop w h now rngS existing count x? y? vx? vy? radius? color? grabbedBy?
        fuel acc nid t).1.length ≤ count := by
  intro fuel
  induction fuel with
  | zero => intro acc nid t hl; rw [spawnLoop]; exact hl
  | succ fuel ih =>
    intro acc nid t hl
    rw [spawnLoop]
    dsimp only
    split_ifs with h1 h2 h3
    · exact ih _ _ _ (by simp; omega)
    · exact ih _ _ _ hl
    · exact ih _ _ _ (by simp; omega)
    · exact hl

/-- Separation invariant of a spawned batch with respect to the pre-existing
store and within itself. -/
def batchSep (existing l : List Obj) : Prop :=
  (∀ o ∈ l, ∀ e ∈ existing, e.radius + o.radius + 5 ≤ hyp (e.x - o.x) (e.y - o.y)) ∧
  l.Pairwise (fun a b => a.radius + b.radius + 5 ≤ hyp (a.x - b.x) (a.y - b.y))

lemma spawnLoop_separation (hxy : x? = none ∨ y? = none) :
    ∀ (fuel : ℕ) (acc : List Obj) (nid t : ℕ), batchSep existing acc →
      batchSep existing
        (spawnLoop w h now rngS existing count x? y? vx? vy? radius? color? grabbedBy?
          fuel acc nid t).1 := by
  intro fuel
  induction fuel with
  | zero => intro acc nid t hs; rw [spawnLoop]; exact hs
  | succ fuel ih =>
    intro acc nid t hs
    rw [spawnLoop]
    dsimp only
    by_cases hl : acc.length < count
    · rw [if_pos hl]
      have hcond : (x?.isNone ∨ y?.isNone) := by
        rcases hxy with hx | hy
        · left; rw [hx]; rfl
        · right; rw [hy]; rfl
      rw [if_pos hcond]
      by_cases hsafe :
          safeAgainst (SpawnRnd.rx (rngS t) * (w - 200) + 100) (SpawnRnd.ry (rngS t) * (h - 200) + 100)
            (radius?.getD (20 + SpawnRnd.rr (rngS t) * 25)) existing ∧
          safeAgainst (SpawnRnd.rx (rngS t) * (w - 200) + 100) (SpawnRnd.ry (rngS t) * (h - 200) + 100)
            (radius?.getD (20 + SpawnRnd.rr (rngS t) * 25)) acc
      · rw [if_pos hsafe]
        apply ih
        constructor
        · intro o ho e he
          rcases List.mem_append.mp ho with ho | ho
          · exact hs.1 o ho e he
          · have hoeq : o = mkSpawned nid now (rngS t) (SpawnRnd.rx (rngS t) * (w - 200) + 100)
                (SpawnRnd.ry (rngS t) * (h - 200) + 100) vx? vy?
                (radius?.getD (20 + SpawnRnd.rr (rngS t) * 25)) color? grabbedBy? := by
              simpa using ho
            subst hoeq
            have hse := hsafe.1 e he
            simp only [mkSpawned, not_lt] at hse ⊢
            exact hse
        · rw [List.pairwise_append]
          refine ⟨hs.2, List.pairwise_singleton _ _, ?_⟩
          intro a ha b hb
          have hbeq : b = mkSpawned nid now (rngS t) (SpawnRnd.rx (rngS t) * (w - 200) + 100)
              (SpawnRnd.ry (rngS t) * (h - 200) + 100) vx? vy?
              (radius?.getD (20 + SpawnRnd.rr (rngS t) * 25)) color? grabbedBy? := by
            simpa using hb
          subst hbeq
          have hsa := hsafe.2 a ha
          simp only [mkSpawned, not_lt] at hsa ⊢
          exact hsa
      · rw [if_neg hsafe]
        exact ih acc nid (t + 1) hs
    · rw [if_neg hl]
      exact hs

lemma spawnLoop_fixed_length (a b : ℝ) (hx : x? = some a) (hy : y? = some b) :
    ∀ (fuel : ℕ) (acc : List Obj) (nid t : ℕ), acc.length ≤ count →
      count ≤ acc.length + fuel →
      (spawnLoop w h now rngS existing count x? y? vx? vy? radius? color? grabbedBy?
        fuel acc nid t).1.length = count := by
  intro fuel
  induction fuel with
  | zero =>
    intro acc nid t h1 h2
    rw [spawnLoop]
    show acc.length = count
    omega
  | succ fuel ih =>
    intro acc nid t h1 h2
    rw [spawnLoop]
    dsimp only
    by_cases hl : acc.length < count
    · rw [if_pos hl]
      have hcond : ¬ (x?.isNone ∨ y?.isNone) := by
        rw [hx, hy]; simp
      rw [if_neg hcond]
      apply ih
      · simp; omega
      · simp; omega
    · rw [if_neg hl]
      show acc.length = count
      omega

lemma spawnLoop_short_means_exhausted :
    ∀ (fuel : ℕ) (acc : List Obj) (nid t : ℕ),
      (spawnLoop w h now rngS existing count x? y? vx? vy? radius? color? grabbedBy?
        fuel acc nid t).1.length < count →
      (spawnLoop w h now rngS existing count x? y? vx? vy? radius? color? grabbedBy?
        fuel acc nid t).2.2 = t + fuel := by
  intro fuel
  induction fuel with
  | zero =>
    intro acc nid t hlt
    rw [spawnLoop]
    show t = t + 0
    omega
  | succ fuel ih =>
    intro acc nid t hlt
    rw [spawnLoop] at hlt ⊢
    dsimp only at hlt ⊢
    by_cases hl : acc.length < count
    · rw [if_pos hl] at hlt ⊢
      by_cases hc : (x?.isNone ∨ y?.isNone)
      · rw [if_pos hc] at hlt ⊢
        by_cases hsafe :
            safeAgainst (SpawnRnd.rx (rngS t) * (w - 200) + 100) (SpawnRnd.ry (rngS t) * (h - 200) + 100)
              (radius?.getD (20 + SpawnRnd.rr (rngS t) * 25)) existing ∧
            safeAgainst (SpawnRnd.rx (rngS t) * (w - 200) + 100) (SpawnRnd.ry (rngS t) * (h - 200) + 100)
              (radius?.getD (20 + SpawnRnd.rr (rngS t) * 25)) acc
        · rw [if_pos hsafe] at hlt ⊢
          rw [ih _ _ _ hlt]; omega
        · rw [if_neg hsafe] at hlt ⊢
          rw [ih _ _ _ hlt]; omega
      · rw [if_neg hc] at hlt ⊢
        rw [ih _ _ _ hlt]; omega
    · rw [if_neg hl] at hlt ⊢
      have hlt2 : acc.length < count := hlt
      omega

end SpawnLemmas

/-- C9: a spawn call consumes at most 50 x count placement attempts (one random
record per attempt) and always terminates; it never places more than count
objects; every object an unconstrained spawn places is at distance at least the
sum of radii plus 5 from every pre-existing object and from every other object
of the same batch; it yields fewer than count objects only after exhausting all
50 x count attempts (and does so by returning normally, not with an error); a
spawn with a fixed position skips the placement search and spawns exactly
count objects. -/
theorem C9_spawn_bounds (w h now : ℝ) (rngS : ℕ → SpawnRnd) (existing : List Obj)
    (count : ℕ) (x? y? vx? vy? radius? : Option ℝ) (color? : Option String)
    (grabbedBy? : Option ℕ) (nid t : ℕ) :
    (spawnObjects w h now rngS existing count x? y? vx? vy? radius? color? grabbedBy?
      nid t).2.2 ≤ t + count * 50 ∧
    (spawnObjects w h now rngS existing count x? y? vx? vy? radius? color? grabbedBy?
      nid t).1.length ≤ count ∧
    (x? = none ∨ y? = none →
      batchSep existing
        (spawnObjects w h now rngS existing count x? y? vx? vy? radius? color? grabbedBy?
          nid t).1) ∧
    ((spawnObjects w h now rngS existing count x? y? vx? vy? radius? color? grabbedBy?
        nid t).1.length < count →
      (spawnObjects w h now rngS existing count x? y? vx? vy? radius? color? grabbedBy?
        nid t).2.2 = t + count * 50) ∧
    (∀ a b : ℝ, x? = some a → y? = some b →
      (spawnObjects w h now rngS existing count x? y? vx? vy? radius? color? grabbedBy?
        nid t).1.length = count) := by
  refine ⟨spawnLoop_rand_le w h now rngS existing count x? y? vx? vy? radius? color?
      grabbedBy? (count * 50) [] nid t,
    spawnLoop_length_le w h now rngS existing count x? y? vx? vy? radius? color?
      grabbedBy? (count * 50) [] nid t (by simp),
    fun hxy => spawnLoop_separation w h now rngS existing count x? y? vx? vy? radius? color?
      grabbedBy? hxy (count * 50) [] nid t ⟨by simp, List.Pairwise.nil⟩,
    spawnLoop_short_means_exhausted w h now rngS existing count x? y? vx? vy? radius? color?
      grabbedBy? (count * 50) [] nid t,
    fun a b hx hy => spawnLoop_fixed_length w h now rngS existing count x? y? vx? vy? radius?
      color? grabbedBy? a b hx hy (count * 50) [] nid t (by simp) (by simp; omega)⟩

/-- C9 witness: at count 3 with a fixed position the spawn yields exactly 3
objects; an unconstrained spawn of count 3 stays within its 150-attempt budget,
places at most 3 objects and keeps the separation margin. -/
theorem C9_spawn_bounds_witness :
    (spawnObjects 1000 1000 0 (fun _ => cRnd) [] 3
      (some 100) (some 100) none none none none none 0 0).1.length = 3 ∧
    (spawnObjects 1000 1000 0 (fun _ => cRnd) [] 3
      none none none none none none none 0 0).2.2 ≤ 150 ∧
    (spawnObjects 1000 1000 0 (fun _ => cRnd) [] 3
      none none none none none none none 0 0).1.length ≤ 3 ∧
    batchSep []
      (spawnObjects 1000 1000 0 (fun _ => cRnd) [] 3
        none none none none none none none 0 0).1 := by
  refine ⟨(C9_spawn_bounds 1000 1000 0 (fun _ => cRnd) [] 3 (some 100) (some 100)
      none none none none none 0 0).2.2.2.2 100 100 rfl rfl, ?_, ?_, ?_⟩
  · exact (C9_spawn_bounds 1000 1000 0 (fun _ => cRnd) [] 3 none none none none none
      none none 0 0).1
  · exact (C9_spawn_bounds 1000 1000 0 (fun _ => cRnd) [] 3 none none none none none
      none none 0 0).2.1
  · exact (C9_spawn_bounds 1000 1000 0 (fun _ => cRnd) [] 3 none none none none none
      none none 0 0).2.2.1 (Or.inl rfl)


/-! ## Claim C8: eating schedules removal; removals applied in one filter -/

lemma moveAndEat_rem_mono (s : GameSettings) (w h now : ℝ) (m : Mouth) :
    ∀ (objs : List Obj) (rem : List ℕ) (x : ℕ), x ∈ rem →
      x ∈ (moveAndEat s w h now m objs rem).2 := by
  intro objs
  induction objs with
  | nil => intro rem x hx; rw [moveAndEat]; exact hx
  | cons o rest ih =>
    intro rem x hx
    rw [moveAndEat]
    dsimp only
    split_ifs <;>
      first
        | exact ih rem x hx
        | exact ih _ x (List.mem_cons_of_mem _ hx)

lemma moveAndEat_eats (s : GameSettings) (w h now : ℝ) (m : Mouth) :
    ∀ (objs : List Obj) (rem : List ℕ) (o : Obj), o ∈ objs →
      m.isOpen = true → o.isGrabbed = false → now - o.createdAt > 2000 →
      hyp ((integrateObj s w h o).x - m.centerX) ((integrateObj s w h o).y - m.centerY)
        < m.width / 2 →
      o.id ∈ (moveAndEat s w h now m objs rem).2 := by
  intro objs
  induction objs with
  | nil => intro rem o ho; exact absurd ho (List.not_mem_nil o)
  | cons o2 rest ih =>
    intro rem o ho hopen hg hage hdist
    rcases List.mem_cons.mp ho with heq | htail
    · subst heq
      rw [moveAndEat]
      dsimp only
      by_cases hmem : o.id ∈ rem
      · rw [if_pos hmem]
        exact moveAndEat_rem_mono s w h now m rest rem o.id hmem
      · rw [if_neg hmem]
        have hcond : m.isOpen = true ∧ ¬ o.isGrabbed = true ∧ now - o.createdAt > 2000 ∧
            hyp ((if o.isGrabbed then o else integrateObj s w h o).x - m.centerX)
              ((if o.isGrabbed then o else integrateObj s w h o).y - m.centerY) < m.width / 2 := by
          refine ⟨hopen, by simp [hg], hage, ?_⟩
          rw [if_neg (by simp [hg])]
          exact hdist
        rw [if_pos hcond]
        exact moveAndEat_rem_mono s w h now m rest _ o.id (List.mem_cons_self _ _)
    · rw [moveAndEat]
      dsimp only
      split_ifs <;>
        first
          | exact ih rem o htail hopen hg hage hdist
          | exact ih _ o htail hopen hg hage hdist

/-- C8: while the mouth is open, any non-grabbed object of the frame pass,
older than 2000ms, whose (post-integration) center falls within half the mouth
width of the mouth center, is scheduled for removal; and the frame applies all
scheduled removals (fusion and eating alike) once, after the full object pass,
as a single filter of the store by the final removal set. -/
theorem C8_eating_and_single_filter (s : GameSettings) (w h now : ℝ) (m : Mouth)
    (objs : List Obj) (rem : List ℕ) (o : Obj) (ho : o ∈ objs)
    (hopen : m.isOpen = true) (hg : o.isGrabbed = false)
    (hage : now - o.createdAt > 2000)
    (hdist : hyp ((integrateObj s w h o).x - m.centerX)
      ((integrateObj s w h o).y - m.centerY) < m.width / 2) :
    o.id ∈ (moveAndEat s w h now m objs rem).2 ∧
    (∀ (inp : FrameInput) (snapshot spawned : List Obj),
      physicsStep s inp snapshot spawned =
        applyRemovals
          ((moveAndEat s inp.width inp.height inp.now inp.mouth
              (collideGate s inp snapshot).1 (collideGate s inp snapshot).2.1).1 ++ spawned)
          (moveAndEat s inp.width inp.height inp.now inp.mouth
              (collideGate s inp snapshot).1 (collideGate s inp snapshot).2.1).2) ∧
    (∀ (l : List Obj) (rem2 : List ℕ) (o2 : Obj),
      o2 ∈ applyRemovals l rem2 ↔ o2 ∈ l ∧ o2.id ∉ rem2) := by
  refine ⟨moveAndEat_eats s w h now m objs rem o ho hopen hg hage hdist,
    fun inp snapshot spawned => rfl, fun l rem2 o2 => ?_⟩
  unfold applyRemovals
  rw [List.mem_filter]
  simp

/-- C8 witness: the spec scenario — mouth open, width 80, a stationary
non-grabbed object of age over 2000ms sitting at the mouth center is scheduled
for removal this frame. -/
theorem C8_eating_and_single_filter_witness :
    (1 : ℕ) ∈ (moveAndEat initialSettings 1000 1000 3000
      { centerX := 500, centerY := 500, width := 80, isOpen := true }
      [{ id := 1, x := 500, y := 500, vx := 0, vy := 0, radius := 20, color := "#fff",
         isGrabbed := false, grabbedByHandIndex := none, wobblePhase := 0, createdAt := 0 }]
      []).2 := by
  have h := C8_eating_and_single_filter initialSettings 1000 1000 3000
    { centerX := 500, centerY := 500, width := 80, isOpen := true }
    [{ id := 1, x := 500, y := 500, vx := 0, vy := 0, radius := 20, color := "#fff",
       isGrabbed := false, grabbedByHandIndex := none, wobblePhase := 0, createdAt := 0 }]
    []
    { id := 1, x := 500, y := 500, vx := 0, vy := 0, radius := 20, color := "#fff",
      isGrabbed := false, grabbedByHandIndex := none, wobblePhase := 0, createdAt := 0 }
    (by simp) rfl rfl (by norm_num) ?_
  · exact h.1
  · have hobj : integrateObj initialSettings 1000 1000
        { id := 1, x := 500, y := 500, vx := 0, vy := 0, radius := 20, color := "#fff",
          isGrabbed := false, grabbedByHandIndex := none, wobblePhase := 0, createdAt := 0 } =
        { id := 1, x := 500, y := 500, vx := 0, vy := 0, radius := 20, color := "#fff",
          isGrabbed := false, grabbedByHandIndex := none, wobblePhase := 0, createdAt := 0 } := by
      unfold integrateObj
      dsimp only
      norm_num [initialSettings]
    rw [hobj]
    dsimp only
    rw [show (500:ℝ) - 500 = 0 by norm_num, hyp_axis]
    norm_num

/-! ## Claim C2: post-pass separation -/

lemma hyp_eval_nonneg (a : ℝ) (h : 0 ≤ a) : hyp a 0 = a := by
  rw [hyp_axis, abs_of_nonneg h]

lemma hyp_eval_nonpos (a : ℝ) (h : a ≤ 0) : hyp a 0 = -a := by
  rw [hyp_axis, abs_of_nonpos h]

/-- After the positional correction of one colliding pair, the centers end up
exactly minDist + 1 apart. -/
lemma sep_dist (dx dy minDist : ℝ) (hlt : hyp dx dy < minDist) :
    hyp (dx + ((minDist - hyp dx dy) + 1) * ncos dx dy)
        (dy + ((minDist - hyp dx dy) + 1) * nsin dx dy) = minDist + 1 := by
  by_cases h0 : hyp dx dy = 0
  · obtain ⟨hx, hy⟩ := (hyp_eq_zero_iff dx dy).mp h0
    have hmd : 0 < minDist := lt_of_le_of_lt (hyp_nonneg dx dy) hlt
    subst hx; subst hy
    rw [ncos, nsin, if_pos h0, if_pos h0, h0]
    rw [show (0:ℝ) + (minDist - 0 + 1) * 1 = minDist + 1 by ring,
        show (0:ℝ) + (minDist - 0 + 1) * 0 = 0 by ring]
    exact hyp_eval_nonneg _ (by linarith)
  · have hpos : 0 < hyp dx dy := lt_of_le_of_ne (hyp_nonneg dx dy) (Ne.symm h0)
    set D := hyp dx dy with hD
    have hov : 0 < (minDist - D) + 1 := by linarith
    rw [ncos, nsin, if_neg h0, if_neg h0, ← hD]
    have e1 : dx + (minDist - D + 1) * (dx / D) = ((D + (minDist - D + 1)) / D) * dx := by
      field_simp
      ring
    have e2 : dy + (minDist - D + 1) * (dy / D) = ((D + (minDist - D + 1)) / D) * dy := by
      field_simp
      ring
    rw [e1, e2, hyp_smul, ← hD]
    rw [abs_of_pos (div_pos (by linarith) hpos)]
    field_simp
    ring

/-- With fusion disabled, one pair step of the collision pass leaves the two
objects non-overlapping: their distance is at least the sum of radii. -/
lemma collideStep_separates (s : GameSettings) (now : ℝ) (rngF : ℕ → ℝ) (o1 o2 : Obj)
    (rem : List ℕ) (t : ℕ)
    (hfus : s.fusionChance = 0) :
    (collideStep s now rngF o1 o2 rem t).1.radius = o1.radius ∧
    (collideStep s now rngF o1 o2 rem t).2.1.radius = o2.radius ∧
    (hyp (o2.x - o1.x) (o2.y - o1.y) < o1.radius + o2.radius →
      ¬ (o1.isGrabbed ∨ o2.isGrabbed ∨ o1.id ∈ rem ∨ o2.id ∈ rem) →
      hyp ((collideStep s now rngF o1 o2 rem t).2.1.x - (collideStep s now rngF o1 o2 rem t).1.x)
          ((collideStep s now rngF o1 o2 rem t).2.1.y - (collideStep s now rngF o1 o2 rem t).1.y)
        = o1.radius + o2.radius + 1) ∧
    (¬ hyp (o2.x - o1.x) (o2.y - o1.y) < o1.radius + o2.radius →
      (collideStep s now rngF o1 o2 rem t).1 = o1 ∧
      (collideStep s now rngF o1 o2 rem t).2.1 = o2) ∧
    ((o1.isGrabbed ∨ o2.isGrabbed ∨ o1.id ∈ rem ∨ o2.id ∈ rem) →
      (collideStep s now rngF o1 o2 rem t).1 = o1 ∧
      (collideStep s now rngF o1 o2 rem t).2.1 = o2) := by
  have hnofuse : ¬ (s.fusionChance > 0 ∧ rngF t < s.fusionChance ∧
      now - o1.createdAt > 2000 ∧ now - o2.createdAt > 2000) := by
    rw [hfus]; intro hcontra; exact absurd hcontra.1 (by norm_num)
  unfold collideStep
  by_cases hskip : o1.isGrabbed = true ∨ o2.isGrabbed = true ∨ o1.id ∈ rem ∨ o2.id ∈ rem
  · rw [if_pos hskip]
    refine ⟨rfl, rfl, ?_, fun _ => ⟨rfl, rfl⟩, fun _ => ⟨rfl, rfl⟩⟩
    intro _ hns
    exact absurd hskip (by simpa using hns)
  · rw [if_neg hskip]
    dsimp only
    by_cases hd : hyp (o2.x - o1.x) (o2.y - o1.y) < o1.radius + o2.radius
    · rw [if_pos hd, if_neg hnofuse]
      refine ⟨rfl, rfl, ?_, fun hcon => absurd hd hcon, fun hcon => absurd (by simpa using hcon) hskip⟩
      intro _ _
      dsimp only
      have e1 : o2.x + (o1.radius + o2.radius - hyp (o2.x - o1.x) (o2.y - o1.y) + 1) / 2 *
            ncos (o2.x - o1.x) (o2.y - o1.y) -
          (o1.x - (o1.radius + o2.radius - hyp (o2.x - o1.x) (o2.y - o1.y) + 1) / 2 *
            ncos (o2.x - o1.x) (o2.y - o1.y)) =
          (o2.x - o1.x) + ((o1.radius + o2.radius - hyp (o2.x - o1.x) (o2.y - o1.y)) + 1) *
            ncos (o2.x - o1.x) (o2.y - o1.y) := by ring
      have e2 : o2.y + (o1.radius + o2.radius - hyp (o2.x - o1.x) (o2.y - o1.y) + 1) / 2 *
            nsin (o2.x - o1.x) (o2.y - o1.y) -
          (o1.y - (o1.radius + o2.radius - hyp (o2.x - o1.x) (o2.y - o1.y) + 1) / 2 *
            nsin (o2.x - o1.x) (o2.y - o1.y)) =
          (o2.y - o1.y) + ((o1.radius + o2.radius - hyp (o2.x - o1.x) (o2.y - o1.y)) + 1) *
            nsin (o2.x - o1.x) (o2.y - o1.y) := by ring
      rw [e1, e2]
      exact sep_dist (o2.x - o1.x) (o2.y - o1.y) (o1.radius + o2.radius) hd
    · rw [if_neg hd]
      exact ⟨rfl, rfl, fun hcon => absurd hcon hd, fun _ => ⟨rfl, rfl⟩,
        fun hcon => absurd (by simpa using hcon) hskip⟩

lemma collidePass_two (s : GameSettings) (now : ℝ) (rngF : ℕ → ℝ) (a b : Obj)
    (rem : List ℕ) (t : ℕ) :
    (collidePass s now rngF [a, b] rem t).1 =
      [(collideStep s now rngF a b rem t).1, (collideStep s now rngF a b rem t).2.1] := by
  rw [collidePass]
  rw [collideOne]
  rw [collideOne]
  dsimp only
  rw [collidePass]
  rw [collideOne]
  dsimp only
  rw [collidePass]

/-- C2 (amended): for a store holding exactly two non-grabbed circular objects,
with fusion disabled, after the full pairwise collision-resolution pass of one
frame the two objects do not overlap: their distance is at least the sum of
their radii (the positional correction puts them exactly 1px apart when they
overlapped, and leaves them untouched otherwise).  With three or more objects
a later pair resolution can push a resolved pair back into overlap (see the
counterexample). -/
theorem C2_two_object_no_overlap (s : GameSettings) (now : ℝ) (rngF : ℕ → ℝ) (a b : Obj)
    (hga : a.isGrabbed = false) (hgb : b.isGrabbed = false)
    (hfus : s.fusionChance = 0) (_hbounce : s.bounce = 1) :
    (collidePass s now rngF [a, b] [] 0).1 =
      [(collideStep s now rngF a b [] 0).1, (collideStep s now rngF a b [] 0).2.1] ∧
    (collideStep s now rngF a b [] 0).1.radius = a.radius ∧
    (collideStep s now rngF a b [] 0).2.1.radius = b.radius ∧
    a.radius + b.radius ≤
      hyp ((collideStep s now rngF a b [] 0).2.1.x - (collideStep s now rngF a b [] 0).1.x)
          ((collideStep s now rngF a b [] 0).2.1.y - (collideStep s now rngF a b [] 0).1.y) := by
  have h := collideStep_separates s now rngF a b [] 0 hfus
  refine ⟨collidePass_two s now rngF a b [] 0, h.1, h.2.1, ?_⟩
  by_cases hd : hyp (b.x - a.x) (b.y - a.y) < a.radius + b.radius
  · have := h.2.2.1 hd (by simp [hga, hgb])
    rw [this]
    linarith
  · obtain ⟨e1, e2⟩ := h.2.2.2.1 hd
    rw [e1, e2]
    exact not_lt.mp hd

/-- C2 witness: two overlapping radius-10 objects, 15 apart, end at least
20 apart after the pass. -/
theorem C2_two_object_no_overlap_witness :
    (10 : ℝ) + 10 ≤
      hyp ((collideStep { initialSettings with bounce := 1 } 0 (fun _ => 0)
          { id := 1, x := 0, y := 0, vx := 0, vy := 0, radius := 10, color := "#fff",
            isGrabbed := false, grabbedByHandIndex := none, wobblePhase := 0, createdAt := 0 }
          { id := 2, x := 15, y := 0, vx := 0, vy := 0, radius := 10, color := "#fff",
            isGrabbed := false, grabbedByHandIndex := none, wobblePhase := 0, createdAt := 0 }
          [] 0).2.1.x -
        (collideStep { initialSettings with bounce := 1 } 0 (fun _ => 0)
          { id := 1, x := 0, y := 0, vx := 0, vy := 0, radius := 10, color := "#fff",
            isGrabbed := false, grabbedByHandIndex := none, wobblePhase := 0, createdAt := 0 }
          { id := 2, x := 15, y := 0, vx := 0, vy := 0, radius := 10, color := "#fff",
            isGrabbed := false, grabbedByHandIndex := none, wobblePhase := 0, createdAt := 0 }
          [] 0).1.x)
        ((collideStep { initialSettings with bounce := 1 } 0 (fun _ => 0)
          { id := 1, x := 0, y := 0, vx := 0, vy := 0, radius := 10, color := "#fff",
            isGrabbed := false, grabbedByHandIndex := none, wobblePhase := 0, createdAt := 0 }
          { id := 2, x := 15, y := 0, vx := 0, vy := 0, radius := 10, color := "#fff",
            isGrabbed := false, grabbedByHandIndex := none, wobblePhase := 0, createdAt := 0 }
          [] 0).2.1.y -
        (collideStep { initialSettings with bounce := 1 } 0 (fun _ => 0)
          { id := 1, x := 0, y := 0, vx := 0, vy := 0, radius := 10, color := "#fff",
            isGrabbed := false, grabbedByHandIndex := none, wobblePhase := 0, createdAt := 0 }
          { id := 2, x := 15, y := 0, vx := 0, vy := 0, radius := 10, color := "#fff",
            isGrabbed := false, grabbedByHandIndex := none, wobblePhase := 0, createdAt := 0 }
          [] 0).1.y) := by
  have h := C2_two_object_no_overlap { initialSettings with bounce := 1 } 0 (fun _ => 0)
    { id := 1, x := 0, y := 0, vx := 0, vy := 0, radius := 10, color := "#fff",
      isGrabbed := false, grabbedByHandIndex := none, wobblePhase := 0, createdAt := 0 }
    { id := 2, x := 15, y := 0, vx := 0, vy := 0, radius := 10, color := "#fff",
      isGrabbed := false, grabbedByHandIndex := none, wobblePhase := 0, createdAt := 0 }
    rfl rfl (by norm_num [initialSettings]) (by norm_num [initialSettings])
  exact h.2.2.2

/-! ### C2 counterexample: three objects, post-pass overlap -/

def c2s : GameSettings := { initialSettings with bounce := 1 }

def c2r : ℕ → ℝ := fun _ => 0

def c2o0 : Obj :=
  { id := 0, x := 0, y := 0, vx := 0, vy := 0, radius := 10, color := "#fff",
    isGrabbed := false, grabbedByHandIndex := none, wobblePhase := 0, createdAt := 0 }

def c2o1 : Obj := { c2o0 with id := 1, x := 15 }

def c2o2 : Obj := { c2o0 with id := 2, x := -18 }

lemma c2_stepA : collideStep c2s 0 c2r c2o0 c2o1 ([] : List ℕ) 0 =
    ({ c2o0 with x := -3 }, { c2o1 with x := 18 }, [], 0) := by
  have h15 : hyp 15 0 = (15 : ℝ) := hyp_eval_nonneg 15 (by norm_num)
  unfold collideStep
  rw [if_neg (by simp [c2o0, c2o1])]
  dsimp only
  simp only [c2s, c2o0, c2o1, ncos, nsin, initialSettings]
  norm_num [h15]

lemma c2_stepB : collideStep c2s 0 c2r { c2o0 with x := -3 } c2o2 ([] : List ℕ) 0 =
    ({ c2o0 with x := 0 }, { c2o2 with x := -21 }, [], 0) := by
  have h15 : hyp (-15) 0 = (15 : ℝ) := by
    rw [hyp_eval_nonpos (-15) (by norm_num)]; norm_num
  unfold collideStep
  rw [if_neg (by simp [c2o0, c2o2])]
  dsimp only
  simp only [c2s, c2o0, c2o2, ncos, nsin, initialSettings]
  norm_num [h15]

lemma c2_stepC : collideStep c2s 0 c2r { c2o1 with x := 18 } { c2o2 with x := -21 }
    ([] : List ℕ) 0 =
    ({ c2o1 with x := 18 }, { c2o2 with x := -21 }, [], 0) := by
  have h39 : hyp (-39) 0 = (39 : ℝ) := by
    rw [hyp_eval_nonpos (-39) (by norm_num)]; norm_num
  unfold collideStep
  rw [if_neg (by simp [c2o0, c2o1, c2o2])]
  dsimp only
  simp only [c2s, c2o0, c2o1, c2o2, initialSettings]
  norm_num [h39]

lemma c2_pass : collidePass c2s 0 c2r [c2o0, c2o1, c2o2] [] 0 =
    ([{ c2o0 with x := 0 }, { c2o1 with x := 18 }, { c2o2 with x := -21 }], [], 0) := by
  rw [collidePass]
  rw [collideOne]
  dsimp only
  rw [c2_stepA]
  dsimp only
  rw [collideOne]
  dsimp only
  rw [c2_stepB]
  dsimp only
  rw [collideOne]
  dsimp only
  rw [collidePass]
  rw [collideOne]
  dsimp only
  rw [c2_stepC]
  dsimp only
  rw [collideOne]
  dsimp only
  rw [collidePass]
  rw [collideOne]
  dsimp only
  rw [collidePass]

/-- C2 counterexample: with three non-grabbed objects, bounce = 1 and fusion
disabled, the full pairwise pass of one frame can leave two objects
overlapping: resolving the pair (0,2) pushes object 0 back towards object 1,
and the pass never revisits the pair (0,1).  Post-pass, objects 0 and 1 (radius
10 each) sit 18 apart, less than the sum of radii even after allowing the 1px
correction buffer. -/
theorem C2_counterexample :
    c2s.bounce = 1 ∧ c2s.fusionChance = 0 ∧
    c2o0.isGrabbed = false ∧ c2o1.isGrabbed = false ∧ c2o2.isGrabbed = false ∧
    ((collidePass c2s 0 c2r [c2o0, c2o1, c2o2] [] 0).1).map (fun o => (o.x, o.y, o.radius)) =
      [(0, 0, 10), (18, 0, 10), (-21, 0, 10)] ∧
    (collidePass c2s 0 c2r [c2o0, c2o1, c2o2] [] 0).2.1 = [] ∧
    hyp ((18 : ℝ) - 0) ((0 : ℝ) - 0) < 10 + 10 - 1 := by
  refine ⟨by norm_num [c2s, initialSettings], by norm_num [c2s, initialSettings],
    rfl, rfl, rfl, ?_, ?_, ?_⟩
  · rw [c2_pass]
    simp [c2o0, c2o1, c2o2]
  · rw [c2_pass]
  · rw [show (18 : ℝ) - 0 = 18 by norm_num, show (0 : ℝ) - 0 = 0 by norm_num,
      hyp_eval_nonneg 18 (by norm_num)]
    norm_num

/-! ## Claim C5: shared-grab resize -/

/-- The two sequential clamping ifs of lines 460-461 compute a [15,150] clamp. -/
lemma clamp_eq (r : ℝ) :
    (if (if r < 15 then (15 : ℝ) else r) > 150 then 150 else (if r < 15 then (15 : ℝ) else r)) =
    min 150 (max 15 r) := by
  rcases lt_or_le r 15 with h | h
  · rw [if_pos h]
    rw [if_neg (by norm_num : ¬ (15 : ℝ) > 150)]
    rw [max_eq_left (le_of_lt h), min_eq_right (by norm_num : (15 : ℝ) ≤ 150)]
  · rw [if_neg (not_lt.mpr h)]
    rcases le_or_lt r 150 with h2 | h2
    · rw [if_neg (not_lt.mpr h2), max_eq_right h, min_eq_right h2]
    · rw [if_pos h2, max_eq_right h, min_eq_left (le_of_lt h2)]

/-- C5 (amended): during a shared-grab resize step (both hands pinching, both
previous hand positions recorded, object qualifying for the double grab), the
object's new radius is the old radius plus 0.6 times the frame-over-frame
change in inter-hand pinch distance, clamped to [15,150]; the result always
lies within [15,150], and the change equals exactly 0.6 times the delta
whenever the unclamped value already lies within [15,150]. -/
theorem C5_resize_clamped (sigs : List HandSig) (prev : ℕ → Option Pt) (objs : List Obj)
    (h0 h1 : HandSig) (p0 p1 : Pt)
    (hs0 : sigs.get? 0 = some h0) (hs1 : sigs.get? 1 = some h1)
    (hp0 : h0.pinching = true) (hp1 : h1.pinching = true)
    (hq0 : prev 0 = some p0) (hq1 : prev 1 = some p1)
    (o : Obj) (hc : dgCond h0 h1 o) :
    (doubleGrabStep sigs prev objs).1 =
      objs.map (dgTransform h0 h1 prev (hyp (h1.x - h0.x) (h1.y - h0.y))) ∧
    (dgTransform h0 h1 prev (hyp (h1.x - h0.x) (h1.y - h0.y)) o).radius =
      min 150 (max 15 (o.radius +
        (hyp (h1.x - h0.x) (h1.y - h0.y) - hyp (p1.x - p0.x) (p1.y - p0.y)) * 0.6)) ∧
    15 ≤ (dgTransform h0 h1 prev (hyp (h1.x - h0.x) (h1.y - h0.y)) o).radius ∧
    (dgTransform h0 h1 prev (hyp (h1.x - h0.x) (h1.y - h0.y)) o).radius ≤ 150 ∧
    (15 ≤ o.radius +
        (hyp (h1.x - h0.x) (h1.y - h0.y) - hyp (p1.x - p0.x) (p1.y - p0.y)) * 0.6 →
      o.radius +
        (hyp (h1.x - h0.x) (h1.y - h0.y) - hyp (p1.x - p0.x) (p1.y - p0.y)) * 0.6 ≤ 150 →
      (dgTransform h0 h1 prev (hyp (h1.x - h0.x) (h1.y - h0.y)) o).radius - o.radius =
        (hyp (h1.x - h0.x) (h1.y - h0.y) - hyp (p1.x - p0.x) (p1.y - p0.y)) * 0.6) := by
  have hstep : (doubleGrabStep sigs prev objs).1 =
      objs.map (dgTransform h0 h1 prev (hyp (h1.x - h0.x) (h1.y - h0.y))) := by
    unfold doubleGrabStep
    rw [hs0, hs1]
    dsimp only
    rw [if_pos ⟨hp0, hp1⟩]
  have htr : (dgTransform h0 h1 prev (hyp (h1.x - h0.x) (h1.y - h0.y)) o).radius =
      min 150 (max 15 (o.radius +
        (hyp (h1.x - h0.x) (h1.y - h0.y) - hyp (p1.x - p0.x) (p1.y - p0.y)) * 0.6)) := by
    unfold dgTransform
    rw [if_pos hc]
    unfold dgApply
    rw [hq0, hq1]
    dsimp only
    rw [clamp_eq]
  refine ⟨hstep, htr, ?_, ?_, ?_⟩
  · rw [htr]
    exact le_min (by norm_num) (le_max_left _ _)
  · rw [htr]
    exact min_le_left _ _
  · intro hlo hhi
    rw [htr, max_eq_right hlo, min_eq_right hhi]
    ring

def c5h0 : HandSig :=
  { x := 0, y := 0, pinching := true, gun := false, tipX := 0, tipY := 0, velY := 0 }

def c5h1 : HandSig :=
  { x := 100, y := 0, pinching := true, gun := false, tipX := 100, tipY := 0, velY := 0 }

def c5prev : ℕ → Option Pt :=
  fun i => if i = 0 then some { x := 0, y := 0 }
    else if i = 1 then some { x := 80, y := 0 } else none

/-- A jointly-held object of radius 149: the resize delta is +20px. -/
def c5obj : Obj :=
  { id := 7, x := 50, y := 0, vx := 0, vy := 0, radius := 149, color := "#fff",
    isGrabbed := false, grabbedByHandIndex := none, wobblePhase := 0, createdAt := 0 }

/-- C5 counterexample: both hands pinching 100px apart, inter-hand distance
grown by 20px since the previous frame, object of radius 149 qualifying for
the shared grab.  The source clamps 149 + 12 = 161 down to 150: the radius
changes by 1, not by 0.6 x 20 = 12, refuting the unconditional "changes by
exactly 0.6 times the delta". -/
theorem C5_counterexample :
    hyp (c5h1.x - c5h0.x) (c5h1.y - c5h0.y) - hyp (80 - 0 : ℝ) (0 - 0 : ℝ) = 20 ∧
    c5prev 0 = some { x := 0, y := 0 } ∧ c5prev 1 = some { x := 80, y := 0 } ∧
    dgCond c5h0 c5h1 c5obj ∧
    ((doubleGrabStep [c5h0, c5h1] c5prev [c5obj]).1).map (fun o => o.radius) = [150] ∧
    ((150 : ℝ) - c5obj.radius ≠
      (hyp (c5h1.x - c5h0.x) (c5h1.y - c5h0.y) - hyp (80 - 0 : ℝ) (0 - 0 : ℝ)) * 0.6) := by
  have h100 : hyp (100 - 0 : ℝ) (0 - 0 : ℝ) = 100 := by
    rw [show (100 : ℝ) - 0 = 100 by norm_num, show (0 : ℝ) - 0 = 0 by norm_num,
      hyp_eval_nonneg 100 (by norm_num)]
  have h80 : hyp (80 - 0 : ℝ) (0 - 0 : ℝ) = 80 := by
    rw [show (80 : ℝ) - 0 = 80 by norm_num, show (0 : ℝ) - 0 = 0 by norm_num,
      hyp_eval_nonneg 80 (by norm_num)]
  have h50a : hyp (c5obj.x - c5h0.x) (c5obj.y - c5h0.y) = 50 := by
    simp only [c5obj, c5h0]
    rw [show (50 : ℝ) - 0 = 50 by norm_num, show (0 : ℝ) - 0 = 0 by norm_num,
      hyp_eval_nonneg 50 (by norm_num)]
  have h50b : hyp (c5obj.x - c5h1.x) (c5obj.y - c5h1.y) = 50 := by
    simp only [c5obj, c5h1]
    rw [show (50 : ℝ) - 100 = -50 by norm_num, show (0 : ℝ) - 0 = 0 by norm_num,
      hyp_eval_nonpos (-50) (by norm_num)]
    norm_num
  have hcond : dgCond c5h0 c5h1 c5obj := by
    unfold dgCond
    left
    rw [h50a, h50b]
    constructor <;> simp [c5obj] <;> norm_num
  refine ⟨by rw [show c5h1.x - c5h0.x = 100 - 0 by simp [c5h0, c5h1],
      show c5h1.y - c5h0.y = 0 - 0 by simp [c5h0, c5h1], h100, h80]; norm_num,
    rfl, rfl, hcond, ?_, ?_⟩
  · unfold doubleGrabStep
    rw [show ([c5h0, c5h1] : List HandSig).get? 0 = some c5h0 from rfl,
      show ([c5h0, c5h1] : List HandSig).get? 1 = some c5h1 from rfl]
    dsimp only
    rw [if_pos ⟨rfl, rfl⟩]
    simp only [List.map_cons, List.map_nil]
    unfold dgTransform
    rw [if_pos hcond]
    unfold dgApply
    rw [show c5prev 0 = some { x := 0, y := 0 } from rfl,
      show c5prev 1 = some { x := 80, y := 0 } from rfl]
    dsimp only
    rw [show c5h1.x - c5h0.x = 100 - 0 by simp [c5h0, c5h1],
      show c5h1.y - c5h0.y = 0 - 0 by simp [c5h0, c5h1], h100]
    rw [show Pt.x { x := 80, y := 0 } - Pt.x { x := 0, y := 0 } = (80 : ℝ) - 0 by norm_num,
      show Pt.y { x := 80, y := 0 } - Pt.y { x := 0, y := 0 } = (0 : ℝ) - 0 by norm_num, h80]
    simp only [c5obj]
    norm_num
  · rw [show c5h1.x - c5h0.x = 100 - 0 by simp [c5h0, c5h1],
      show c5h1.y - c5h0.y = 0 - 0 by simp [c5h0, c5h1], h100, h80]
    simp only [c5obj]
    norm_num

/-- The witness object: radius 50, jointly held. -/
def c5objW : Obj :=
  { id := 8, x := 50, y := 0, vx := 0, vy := 0, radius := 50, color := "#fff",
    isGrabbed := false, grabbedByHandIndex := none, wobblePhase := 0, createdAt := 0 }

/-- C5 witness: same hands and delta (+20px), object of radius 50 — the
unclamped value 62 lies in [15,150], so the radius grows by exactly 12. -/
theorem C5_resize_clamped_witness :
    (dgTransform c5h0 c5h1 c5prev (hyp (c5h1.x - c5h0.x) (c5h1.y - c5h0.y)) c5objW).radius = 62 ∧
    15 ≤ (dgTransform c5h0 c5h1 c5prev (hyp (c5h1.x - c5h0.x) (c5h1.y - c5h0.y)) c5objW).radius ∧
    (dgTransform c5h0 c5h1 c5prev (hyp (c5h1.x - c5h0.x) (c5h1.y - c5h0.y)) c5objW).radius ≤ 150 := by
  have h100 : hyp (c5h1.x - c5h0.x) (c5h1.y - c5h0.y) = 100 := by
    rw [show c5h1.x - c5h0.x = 100 - 0 by simp [c5h0, c5h1],
      show c5h1.y - c5h0.y = 0 - 0 by simp [c5h0, c5h1]]
    rw [show (100 : ℝ) - 0 = 100 by norm_num, show (0 : ℝ) - 0 = 0 by norm_num,
      hyp_eval_nonneg 100 (by norm_num)]
  have hcond : dgCond c5h0 c5h1 c5objW := by
    unfold dgCond
    left
    have ha : hyp (c5objW.x - c5h0.x) (c5objW.y - c5h0.y) = 50 := by
      simp only [c5objW, c5h0]
      rw [show (50 : ℝ) - 0 = 50 by norm_num, show (0 : ℝ) - 0 = 0 by norm_num,
        hyp_eval_nonneg 50 (by norm_num)]
    have hb : hyp (c5objW.x - c5h1.x) (c5objW.y - c5h1.y) = 50 := by
      simp only [c5objW, c5h1]
      rw [show (50 : ℝ) - 100 = -50 by norm_num, show (0 : ℝ) - 0 = 0 by norm_num,
        hyp_eval_nonpos (-50) (by norm_num)]
      norm_num
    rw [ha, hb]
    constructor <;> simp [c5objW]
  have h := C5_resize_clamped [c5h0, c5h1] c5prev [c5objW]
    c5h0 c5h1 { x := 0, y := 0 } { x := 80, y := 0 } rfl rfl rfl rfl rfl rfl c5objW hcond
  refine ⟨?_, h.2.2.1, h.2.2.2.1⟩
  rw [h.2.1, h100]
  have h80 : hyp (Pt.x { x := 80, y := 0 } - Pt.x { x := 0, y := 0 })
      (Pt.y { x := 80, y := 0 } - Pt.y { x := 0, y := 0 }) = 80 := by
    dsimp only
    rw [show (80 : ℝ) - 0 = 80 by norm_num, show (0 : ℝ) - 0 = 0 by norm_num,
      hyp_eval_nonneg 80 (by norm_num)]
  rw [h80, show c5objW.radius = (50 : ℝ) from rfl]
  rw [show (50 : ℝ) + (100 - 80) * 0.6 = 62 by norm_num]
  rw [max_eq_right (by norm_num : (15 : ℝ) ≤ 62), min_eq_right (by norm_num : (62 : ℝ) ≤ 150)]

/-! ## Claim C4: grab-state invariant

The three grab-resolution passes are forEach loops whose bodies read only the
object at hand (plus the hand signals), so each is a pointwise map; shF is the
composite per-object action of the single-hand pass. -/

def shF (s : GameSettings) (dg : List ℕ) (prev : ℕ → Option Pt) :
    List HandSig → ℕ → Obj → Obj
  | [], _, o => o
  | h :: rest, i, o =>
    shF s dg prev rest (i + 1)
      (match prev i with
       | none => o
       | some p => if h.pinching then shPinch s dg h p i o else shRelease dg i o)

lemma shLoop_eq_map (s : GameSettings) (dg : List ℕ) (prev : ℕ → Option Pt) :
    ∀ (sigs : List HandSig) (i : ℕ) (objs : List Obj),
      shLoop s dg prev sigs i objs = objs.map (shF s dg prev sigs i) := by
  intro sigs
  induction sigs with
  | nil =>
    intro i objs
    rw [shLoop]
    have he : shF s dg prev [] i = fun o => o := funext fun o => by rw [shF]
    rw [he, List.map_id']
  | cons hh rest ih =>
    intro i objs
    rw [shLoop]
    cases hp : prev i with
    | none =>
      dsimp only
      rw [ih]
      apply List.map_congr_left
      intro o _
      rw [shF, hp]
    | some p =>
      dsimp only
      by_cases hpin : hh.pinching = true
      · rw [if_pos hpin, ih, List.map_map]
        apply List.map_congr_left
        intro o _
        simp only [Function.comp]
        rw [shF, hp]
        dsimp only
        rw [if_pos hpin]
      · rw [if_neg hpin, ih, List.map_map]
        apply List.map_congr_left
        intro o _
        simp only [Function.comp]
        rw [shF, hp]
        dsimp only
        rw [if_neg hpin]

/-- The per-object action of the double-grab pass. -/
def dgPart (sigs : List HandSig) (prev : ℕ → Option Pt) (o : Obj) : Obj :=
  match sigs.get? 0, sigs.get? 1 with
  | some h0, some h1 =>
    if h0.pinching ∧ h1.pinching then
      dgTransform h0 h1 prev (hyp (h1.x - h0.x) (h1.y - h0.y)) o
    else o
  | _, _ => o

lemma doubleGrabStep_fst (sigs : List HandSig) (prev : ℕ → Option Pt) (objs : List Obj) :
    (doubleGrabStep sigs prev objs).1 = objs.map (dgPart sigs prev) := by
  unfold doubleGrabStep dgPart
  cases h0 : sigs.get? 0 with
  | none => simp
  | some a =>
    cases h1 : sigs.get? 1 with
    | none => simp
    | some b =>
      dsimp only
      by_cases hp : (a.pinching = true ∧ b.pinching = true)
      · rw [if_pos hp]
        exact List.map_congr_left fun o _ => by rw [if_pos hp]
      · rw [if_neg hp]
        exact ((List.map_congr_left fun o _ => by rw [if_neg hp]).trans
          (List.map_id' objs)).symm

lemma doubleGrabStep_mem (sigs : List HandSig) (prev : ℕ → Option Pt) (objs : List Obj)
    (x : ℕ) :
    x ∈ (doubleGrabStep sigs prev objs).2 ↔
      ∃ h0 h1, sigs.get? 0 = some h0 ∧ sigs.get? 1 = some h1 ∧
        h0.pinching = true ∧ h1.pinching = true ∧
        ∃ o ∈ objs, dgCond h0 h1 o ∧ o.id = x := by
  unfold doubleGrabStep
  cases h0 : sigs.get? 0 with
  | none => simp
  | some a =>
    cases h1 : sigs.get? 1 with
    | none => simp
    | some b =>
      dsimp only
      by_cases hp : (a.pinching = true ∧ b.pinching = true)
      · rw [if_pos hp]
        simp only [List.mem_map, List.mem_filter, decide_eq_true_eq]
        constructor
        · rintro ⟨o, ⟨ho, hc⟩, hid⟩
          exact ⟨a, b, rfl, rfl, hp.1, hp.2, o, ho, hc, hid⟩
        · rintro ⟨h0x, h1x, he0, he1, _, _, o, ho, hc, hid⟩
          obtain rfl : h0x = a := (Option.some.inj he0).symm
          obtain rfl : h1x = b := (Option.some.inj he1).symm
          exact ⟨o, ⟨ho, hc⟩, hid⟩
      · rw [if_neg hp]
        simp only [List.not_mem_nil, false_iff]
        rintro ⟨h0x, h1x, he0, he1, hpa, hpb, _⟩
        obtain rfl : h0x = a := (Option.some.inj he0).symm
        obtain rfl : h1x = b := (Option.some.inj he1).symm
        exact hp ⟨hpa, hpb⟩

lemma cleanupStep_eq_map (dg : List ℕ) (objs : List Obj) :
    cleanupStep dg objs = objs.map (cleanupOne dg) := rfl

/-- Ids are preserved by each per-object action. -/
lemma dgApply_fields (h0 h1 : HandSig) (prev : ℕ → Option Pt) (cd : ℝ) (o : Obj) :
    (dgApply h0 h1 prev cd o).id = o.id ∧
    (dgApply h0 h1 prev cd o).isGrabbed = true ∧
    (dgApply h0 h1 prev cd o).grabbedByHandIndex = none := by
  unfold dgApply
  cases prev 0 <;> cases prev 1 <;> simp

lemma dgPart_id (sigs : List HandSig) (prev : ℕ → Option Pt) (o : Obj) :
    (dgPart sigs prev o).id = o.id := by
  unfold dgPart
  cases sigs.get? 0 with
  | none => rfl
  | some a =>
    cases sigs.get? 1 with
    | none => rfl
    | some b =>
      dsimp only
      by_cases hp : (a.pinching = true ∧ b.pinching = true)
      · rw [if_pos hp]
        unfold dgTransform
        by_cases hc : dgCond a b o
        · rw [if_pos hc]
          exact (dgApply_fields a b prev _ o).1
        · rw [if_neg hc]
      · rw [if_neg hp]

lemma shPinch_cases (s : GameSettings) (dg : List ℕ) (h : HandSig) (p : Pt) (i : ℕ)
    (o : Obj) :
    shPinch s dg h p i o = o ∨
    (shPinch s dg h p i o).id = o.id ∧
      (shPinch s dg h p i o).isGrabbed = o.isGrabbed ∧
      (shPinch s dg h p i o).grabbedByHandIndex = o.grabbedByHandIndex ∨
    (shPinch s dg h p i o).id = o.id ∧
      (shPinch s dg h p i o).isGrabbed = true ∧
      (shPinch s dg h p i o).grabbedByHandIndex = some i := by
  unfold shPinch
  split_ifs with h1 h2 h3 h4
  · left; rfl
  · right; left; exact ⟨rfl, by simp [h2.1], by simp [h2.2]⟩
  · left; rfl
  · right; right; exact ⟨rfl, rfl, rfl⟩
  · left; rfl

lemma shRelease_cases (dg : List ℕ) (i : ℕ) (o : Obj) :
    shRelease dg i o = o ∨
    (shRelease dg i o).id = o.id ∧ (shRelease dg i o).isGrabbed = false ∧
      (shRelease dg i o).grabbedByHandIndex = none := by
  unfold shRelease
  split_ifs
  · right; exact ⟨rfl, rfl, rfl⟩
  · left; rfl

/-- An object in the current double-grab set passes through the single-hand
pass untouched. -/
lemma shF_dg_skip (s : GameSettings) (dg : List ℕ) (prev : ℕ → Option Pt) :
    ∀ (sigs : List HandSig) (i : ℕ) (o : Obj), o.id ∈ dg →
      shF s dg prev sigs i o = o := by
  intro sigs
  induction sigs with
  | nil => intro i o _; rw [shF]
  | cons hh rest ih =>
    intro i o hmem
    rw [shF]
    cases hp : prev i with
    | none => dsimp only; exact ih (i + 1) o hmem
    | some p =>
      dsimp only
      by_cases hpin : hh.pinching = true
      · rw [if_pos hpin]
        have hsk : shPinch s dg hh p i o = o := by
          unfold shPinch
          rw [if_pos hmem]
        rw [hsk]
        exact ih (i + 1) o hmem
      · rw [if_neg hpin]
        have hsk : shRelease dg i o = o := by
          unfold shRelease
          rw [if_neg (by intro hcon; exact hcon.2.2 hmem)]
        rw [hsk]
        exact ih (i + 1) o hmem

/-- Through the single-hand pass, an object keeps its id, and its hand index
either is preserved, or becomes none, or becomes an index of a processed hand. -/
lemma shF_fields (s : GameSettings) (dg : List ℕ) (prev : ℕ → Option Pt) :
    ∀ (sigs : List HandSig) (i : ℕ) (o : Obj),
      (shF s dg prev sigs i o).id = o.id ∧
      ((shF s dg prev sigs i o).grabbedByHandIndex = o.grabbedByHandIndex ∨
        (shF s dg prev sigs i o).grabbedByHandIndex = none ∨
        ∃ j, i ≤ j ∧ j < i + sigs.length ∧
          (shF s dg prev sigs i o).grabbedByHandIndex = some j) := by
  intro sigs
  induction sigs with
  | nil => intro i o; rw [shF]; exact ⟨rfl, Or.inl rfl⟩
  | cons hh rest ih =>
    intro i o
    rw [shF]
    cases hp : prev i with
    | none =>
      dsimp only
      obtain ⟨hid, hidx⟩ := ih (i + 1) o
      refine ⟨hid, ?_⟩
      rcases hidx with h | h | ⟨j, hj1, hj2, hj3⟩
      · exact Or.inl h
      · exact Or.inr (Or.inl h)
      · exact Or.inr (Or.inr ⟨j, by omega, by simp; omega, hj3⟩)
    | some p =>
      dsimp only
      by_cases hpin : hh.pinching = true
      · rw [if_pos hpin]
        rcases shPinch_cases s dg hh p i o with he | ⟨hid2, _, hidx2⟩ | ⟨hid2, _, hidx2⟩
        · rw [he]
          obtain ⟨hid, hidx⟩ := ih (i + 1) o
          refine ⟨hid, ?_⟩
          rcases hidx with h | h | ⟨j, hj1, hj2, hj3⟩
          · exact Or.inl h
          · exact Or.inr (Or.inl h)
          · exact Or.inr (Or.inr ⟨j, by omega, by simp; omega, hj3⟩)
        · obtain ⟨hid, hidx⟩ := ih (i + 1) (shPinch s dg hh p i o)
          refine ⟨hid.trans hid2, ?_⟩
          rcases hidx with h | h | ⟨j, hj1, hj2, hj3⟩
          · rw [hidx2] at h
            exact Or.inl h
          · exact Or.inr (Or.inl h)
          · exact Or.inr (Or.inr ⟨j, by omega, by simp; omega, hj3⟩)
        · obtain ⟨hid, hidx⟩ := ih (i + 1) (shPinch s dg hh p i o)
          refine ⟨hid.trans hid2, ?_⟩
          rcases hidx with h | h | ⟨j, hj1, hj2, hj3⟩
          · rw [hidx2] at h
            exact Or.inr (Or.inr ⟨i, le_rfl, by simp, h⟩)
          · exact Or.inr (Or.inl h)
          · exact Or.inr (Or.inr ⟨j, by omega, by simp; omega, hj3⟩)
      · rw [if_neg hpin]
        rcases shRelease_cases dg i o with he | ⟨hid2, _, hidx2⟩
        · rw [he]
          obtain ⟨hid, hidx⟩ := ih (i + 1) o
          refine ⟨hid, ?_⟩
          rcases hidx with h | h | ⟨j, hj1, hj2, hj3⟩
          · exact Or.inl h
          · exact Or.inr (Or.inl h)
          · exact Or.inr (Or.inr ⟨j, by omega, by simp; omega, hj3⟩)
        · obtain ⟨hid, hidx⟩ := ih (i + 1) (shRelease dg i o)
          refine ⟨hid.trans hid2, ?_⟩
          rcases hidx with h | h | ⟨j, hj1, hj2, hj3⟩
          · rw [hidx2] at h
            exact Or.inr (Or.inl h)
          · exact Or.inr (Or.inl h)
          · exact Or.inr (Or.inr ⟨j, by omega, by simp; omega, hj3⟩)

lemma cleanupOne_fields (dg : List ℕ) (o : Obj) :
    (cleanupOne dg o).id = o.id ∧
    (cleanupOne dg o).grabbedByHandIndex = o.grabbedByHandIndex := by
  unfold cleanupOne
  split_ifs <;> exact ⟨rfl, rfl⟩

lemma dgPart_idx (sigs : List HandSig) (prev : ℕ → Option Pt) (o : Obj) :
    (dgPart sigs prev o).grabbedByHandIndex = o.grabbedByHandIndex ∨
    ((dgPart sigs prev o).grabbedByHandIndex = none ∧ (dgPart sigs prev o).isGrabbed = true) := by
  unfold dgPart
  cases sigs.get? 0 with
  | none => exact Or.inl rfl
  | some a =>
    cases sigs.get? 1 with
    | none => exact Or.inl rfl
    | some b =>
      dsimp only
      by_cases hp : (a.pinching = true ∧ b.pinching = true)
      · rw [if_pos hp]
        unfold dgTransform
        by_cases hc : dgCond a b o
        · rw [if_pos hc]
          exact Or.inr ⟨(dgApply_fields a b prev _ o).2.2, (dgApply_fields a b prev _ o).2.1⟩
        · rw [if_neg hc]
          exact Or.inl rfl
      · rw [if_neg hp]
        exact Or.inl rfl

lemma spawnLoop_nid_le (w h now : ℝ) (rngS : ℕ → SpawnRnd) (existing : List Obj)
    (count : ℕ) (x? y? vx? vy? radius? : Option ℝ) (color? : Option String)
    (grabbedBy? : Option ℕ) :
    ∀ (fuel : ℕ) (acc : List Obj) (nid t : ℕ),
      nid ≤ (spawnLoop w h now rngS existing count x? y? vx? vy? radius? color? grabbedBy?
        fuel acc nid t).2.1 := by
  intro fuel
  induction fuel with
  | zero => intro acc nid t; rw [spawnLoop]
  | succ fuel ih =>
    intro acc nid t
    rw [spawnLoop]
    dsimp only
    split_ifs
    · exact le_trans (by omega) (ih _ (nid + 1) _)
    · exact ih _ nid _
    · exact le_trans (by omega) (ih _ (nid + 1) _)
    · exact le_rfl

lemma spawnLoop_mem (w h now : ℝ) (rngS : ℕ → SpawnRnd) (existing : List Obj)
    (count : ℕ) (x? y? vx? vy? radius? : Option ℝ) (color? : Option String)
    (grabbedBy? : Option ℕ) :
    ∀ (fuel : ℕ) (acc : List Obj) (nid t : ℕ),
      ∀ o ∈ (spawnLoop w h now rngS existing count x? y? vx? vy? radius? color? grabbedBy?
        fuel acc nid t).1,
        o ∈ acc ∨ (nid ≤ o.id ∧ o.grabbedByHandIndex = grabbedBy? ∧
          o.isGrabbed = grabbedBy?.isSome) := by
  intro fuel
  induction fuel with
  | zero => intro acc nid t o ho; rw [spawnLoop] at ho; exact Or.inl ho
  | succ fuel ih =>
    intro acc nid t o ho
    rw [spawnLoop] at ho
    dsimp only at ho
    split_ifs at ho
    · rcases ih _ (nid + 1) _ o ho with hm | ⟨hle, hfields⟩
      · rcases List.mem_append.mp hm with hm | hm
        · exact Or.inl hm
        · obtain rfl := List.mem_singleton.mp hm
          exact Or.inr ⟨le_rfl, rfl, rfl⟩
      · exact Or.inr ⟨by omega, hfields⟩
    · rcases ih _ nid _ o ho with hm | ⟨hle, hfields⟩
      · exact Or.inl hm
      · exact Or.inr ⟨hle, hfields⟩
    · rcases ih _ (nid + 1) _ o ho with hm | ⟨hle, hfields⟩
      · rcases List.mem_append.mp hm with hm | hm
        · exact Or.inl hm
        · obtain rfl := List.mem_singleton.mp hm
          exact Or.inr ⟨le_rfl, rfl, rfl⟩
      · exact Or.inr ⟨by omega, hfields⟩
    · exact Or.inl ho

lemma handStep_nid_le (s : GameSettings) (inp : FrameInput) (snapshot : List Obj)
    (prev : ℕ → Option Pt) (i : ℕ) (hr : HandRaw) (st0 : HPSt) :
    st0.nid ≤ (handStep s inp snapshot prev i hr st0).nid := by
  unfold handStep
  dsimp only
  split_ifs
  · exact le_trans (spawnLoop_nid_le _ _ _ _ _ _ _ _ _ _ _ _ _ _ _ _ _)
      (spawnLoop_nid_le _ _ _ _ _ _ _ _ _ _ _ _ _ _ _ _ _)
  · exact spawnLoop_nid_le _ _ _ _ _ _ _ _ _ _ _ _ _ _ _ _ _
  · exact spawnLoop_nid_le _ _ _ _ _ _ _ _ _ _ _ _ _ _ _ _ _
  · exact le_rfl

lemma handStep_spawned (s : GameSettings) (inp : FrameInput) (snapshot : List Obj)
    (prev : ℕ → Option Pt) (i : ℕ) (hr : HandRaw) (st0 : HPSt) :
    ∀ o ∈ (handStep s inp snapshot prev i hr st0).spawned,
      o ∈ st0.spawned ∨ (st0.nid ≤ o.id ∧
        (o.grabbedByHandIndex = none ∧ o.isGrabbed = false ∨
         o.grabbedByHandIndex = some i ∧ o.isGrabbed = true)) := by
  unfold handStep
  dsimp only
  split_ifs with h1 h2 h3
  all_goals intro o ho
  · dsimp only at ho
    rcases List.mem_append.mp ho with hm | hm
    · rcases List.mem_append.mp hm with hm2 | hm2
      · exact Or.inl hm2
      · rcases spawnLoop_mem _ _ _ _ _ _ _ _ _ _ _ _ _ _ _ _ _ o hm2 with hx | ⟨hle, hf1, hf2⟩
        · exact absurd hx (List.not_mem_nil o)
        · exact Or.inr ⟨hle, Or.inr ⟨hf1, by rw [hf2]; rfl⟩⟩
    · rcases spawnLoop_mem _ _ _ _ _ _ _ _ _ _ _ _ _ _ _ _ _ o hm with hx | ⟨hle, hf1, hf2⟩
      · exact absurd hx (List.not_mem_nil o)
      · refine Or.inr ⟨le_trans (le_trans (spawnLoop_nid_le _ _ _ _ _ _ _ _ _ _ _ _ _ _ _ _ _) le_rfl) hle, Or.inl ⟨hf1, by rw [hf2]; rfl⟩⟩
  · dsimp only at ho
    rcases List.mem_append.mp ho with hm | hm
    · exact Or.inl hm
    · rcases spawnLoop_mem _ _ _ _ _ _ _ _ _ _ _ _ _ _ _ _ _ o hm with hx | ⟨hle, hf1, hf2⟩
      · exact absurd hx (List.not_mem_nil o)
      · exact Or.inr ⟨hle, Or.inr ⟨hf1, by rw [hf2]; rfl⟩⟩
  · dsimp only at ho
    rcases List.mem_append.mp ho with hm | hm
    · exact Or.inl hm
    · rcases spawnLoop_mem _ _ _ _ _ _ _ _ _ _ _ _ _ _ _ _ _ o hm with hx | ⟨hle, hf1, hf2⟩
      · exact absurd hx (List.not_mem_nil o)
      · exact Or.inr ⟨hle, Or.inl ⟨hf1, by rw [hf2]; rfl⟩⟩
  · exact Or.inl ho

lemma handStep_sigs (s : GameSettings) (inp : FrameInput) (snapshot : List Obj)
    (prev : ℕ → Option Pt) (i : ℕ) (hr : HandRaw) (st0 : HPSt) :
    (handStep s inp snapshot prev i hr st0).sigs = st0.sigs ++ [mkSig s prev i hr] := by
  unfold handStep
  dsimp only
  split_ifs <;> rfl

lemma handLoop_nid_le (s : GameSettings) (inp : FrameInput) (snapshot : List Obj)
    (prev : ℕ → Option Pt) :
    ∀ (hrs : List HandRaw) (i : ℕ) (st0 : HPSt),
      st0.nid ≤ (handLoop s inp snapshot prev hrs i st0).nid := by
  intro hrs
  induction hrs with
  | nil => intro i st0; rw [handLoop]
  | cons hr rest ih =>
    intro i st0
    rw [handLoop]
    exact le_trans (handStep_nid_le s inp snapshot prev i hr st0) (ih (i + 1) _)

lemma handLoop_spawned (s : GameSettings) (inp : FrameInput) (snapshot : List Obj)
    (prev : ℕ → Option Pt) :
    ∀ (hrs : List HandRaw) (i : ℕ) (st0 : HPSt),
      ∀ o ∈ (handLoop s inp snapshot prev hrs i st0).spawned,
        o ∈ st0.spawned ∨ (st0.nid ≤ o.id ∧
          (o.grabbedByHandIndex = none ∧ o.isGrabbed = false ∨
           ∃ j, i ≤ j ∧ j < i + hrs.length ∧
             o.grabbedByHandIndex = some j ∧ o.isGrabbed = true)) := by
  intro hrs
  induction hrs with
  | nil => intro i st0 o ho; rw [handLoop] at ho; exact Or.inl ho
  | cons hr rest ih =>
    intro i st0 o ho
    rw [handLoop] at ho
    rcases ih (i + 1) _ o ho with hm | ⟨hle, hforms⟩
    · rcases handStep_spawned s inp snapshot prev i hr st0 o hm with hm2 | ⟨hle2, hf⟩
      · exact Or.inl hm2
      · refine Or.inr ⟨hle2, ?_⟩
        rcases hf with hf | hf
        · exact Or.inl hf
        · exact Or.inr ⟨i, le_rfl, by simp, hf.1, hf.2⟩
    · refine Or.inr ⟨le_trans (handStep_nid_le s inp snapshot prev i hr st0) hle, ?_⟩
      rcases hforms with hf | ⟨j, hj1, hj2, hj3⟩
      · exact Or.inl hf
      · exact Or.inr ⟨j, by omega, by simp; omega, hj3⟩

lemma handLoop_sigs_len (s : GameSettings) (inp : FrameInput) (snapshot : List Obj)
    (prev : ℕ → Option Pt) :
    ∀ (hrs : List HandRaw) (i : ℕ) (st0 : HPSt),
      ((handLoop s inp snapshot prev hrs i st0).sigs).length =
        st0.sigs.length + hrs.length := by
  intro hrs
  induction hrs with
  | nil => intro i st0; rw [handLoop]; simp
  | cons hr rest ih =>
    intro i st0
    rw [handLoop, ih, handStep_sigs]
    simp
    omega

/-- The image of a snapshot object under the three grab-resolution passes
keeps its id, and ends in the shared state exactly when its id is in the
current double-grab set. -/
lemma grab_iff_core (s : GameSettings) (sigs : List HandSig) (prev : ℕ → Option Pt)
    (objs : List Obj) (hnodup : (objs.map Obj.id).Nodup) (o : Obj) (ho : o ∈ objs) :
    (cleanupOne (doubleGrabStep sigs prev objs).2
      (shF s (doubleGrabStep sigs prev objs).2 prev sigs 0 (dgPart sigs prev o))).id = o.id ∧
    (grabStateOf (cleanupOne (doubleGrabStep sigs prev objs).2
        (shF s (doubleGrabStep sigs prev objs).2 prev sigs 0 (dgPart sigs prev o))) =
      GrabState.shared ↔
      o.id ∈ (doubleGrabStep sigs prev objs).2) := by
  set dg := (doubleGrabStep sigs prev objs).2 with hdg
  have hid : (cleanupOne dg (shF s dg prev sigs 0 (dgPart sigs prev o))).id = o.id := by
    rw [(cleanupOne_fields dg _).1, (shF_fields s dg prev sigs 0 _).1, dgPart_id]
  refine ⟨hid, ?_⟩
  by_cases hmem : o.id ∈ dg
  · -- o qualifies for the double grab: forced shared, untouched afterwards.
    rw [hdg] at hmem
    obtain ⟨h0, h1, hs0, hs1, hp0, hp1, o2, ho2, hc2, hid2⟩ :=
      (doubleGrabStep_mem sigs prev objs o.id).mp hmem
    have heq : o2 = o := List.inj_on_of_nodup_map hnodup ho2 ho hid2
    rw [heq] at hc2
    have hpart : dgPart sigs prev o =
        dgApply h0 h1 prev (hyp (h1.x - h0.x) (h1.y - h0.y)) o := by
      unfold dgPart
      rw [hs0, hs1]
      dsimp only
      rw [if_pos ⟨hp0, hp1⟩]
      unfold dgTransform
      rw [if_pos hc2]
    have happ := dgApply_fields h0 h1 prev (hyp (h1.x - h0.x) (h1.y - h0.y)) o
    have hskip : shF s dg prev sigs 0 (dgPart sigs prev o) = dgPart sigs prev o := by
      apply shF_dg_skip
      rw [dgPart_id]
      exact hmem
    have hcl : cleanupOne dg (dgPart sigs prev o) = dgPart sigs prev o := by
      unfold cleanupOne
      rw [if_neg]
      intro hcon
      exact hcon.2.2 (by rw [dgPart_id]; exact hmem)
    rw [hskip, hcl, hpart]
    unfold grabStateOf
    rw [if_pos happ.2.1, happ.2.2]
    simp [hmem, hpart ▸ (dgPart_id sigs prev o), happ.1]
  · -- o is outside the double-grab set: it cannot end shared.
    have hx := shF_fields s dg prev sigs 0 (dgPart sigs prev o)
    set x := shF s dg prev sigs 0 (dgPart sigs prev o) with hxdef
    have hxid : x.id = o.id := by rw [hx.1, dgPart_id]
    simp only [hmem, iff_false]
    unfold cleanupOne
    by_cases hcl : x.grabbedByHandIndex = none ∧ x.isGrabbed = true ∧ x.id ∉ dg
    · rw [if_pos hcl]
      unfold grabStateOf
      simp
    · rw [if_neg hcl]
      unfold grabStateOf
      by_cases hg : x.isGrabbed = true
      · rw [if_pos hg]
        cases hix : x.grabbedByHandIndex with
        | none =>
          exfalso
          exact hcl ⟨hix, hg, by rw [hxid]; exact hmem⟩
        | some j => simp
      · rw [if_neg hg]
        simp

/-- The classifier lands in one of the four states as soon as the hand index
is null, 0 or 1. -/
lemma fourState_of_idx (o : Obj)
    (h : o.grabbedByHandIndex = none ∨ o.grabbedByHandIndex = some 0 ∨
      o.grabbedByHandIndex = some 1) :
    grabStateOf o = GrabState.ungrabbed ∨ grabStateOf o = GrabState.grabbedBy 0 ∨
    grabStateOf o = GrabState.grabbedBy 1 ∨ grabStateOf o = GrabState.shared := by
  unfold grabStateOf
  by_cases hg : o.isGrabbed = true
  · rw [if_pos hg]
    rcases h with h | h | h <;> rw [h]
    · right; right; right; rfl
    · right; left; rfl
    · right; right; left; rfl
  · rw [if_neg hg]
    left; rfl

/-- C4: at the end of a frame's interaction resolution, every object of the
store is in exactly one of the four grab states (the classifier grabStateOf is
a function, and its value is constrained to ungrabbed, grabbedBy 0,
grabbedBy 1 or shared), and an object is in the shared state (isGrabbed with
null hand index) if and only if its id belongs to that frame's double-grab
set. -/
theorem C4_grab_state_invariant (s : GameSettings) (st : SimState) (inp : FrameInput)
    (hnodup : (st.objects.map Obj.id).Nodup)
    (hids : ∀ o ∈ st.objects, o.id < st.nextId)
    (hwf : ∀ o ∈ st.objects, o.grabbedByHandIndex = none ∨
      o.grabbedByHandIndex = some 0 ∨ o.grabbedByHandIndex = some 1)
    (hhands : inp.hands.length ≤ 2) :
    ∀ o ∈ (interactionResolve s st inp).store,
      (grabStateOf o = GrabState.ungrabbed ∨ grabStateOf o = GrabState.grabbedBy 0 ∨
       grabStateOf o = GrabState.grabbedBy 1 ∨ grabStateOf o = GrabState.shared) ∧
      (grabStateOf o = GrabState.shared ↔ o.id ∈ (interactionResolve s st inp).dg) := by
  intro o ho
  have hsiglen : (handPass s inp st).sigs.length = inp.hands.length := by
    unfold handPass
    rw [handLoop_sigs_len]
    simp
  have hstore : (interactionResolve s st inp).store =
      st.objects.map (fun oo => cleanupOne (doubleGrabStep (handPass s inp st).sigs st.prevHandPos st.objects).2
        (shF s (doubleGrabStep (handPass s inp st).sigs st.prevHandPos st.objects).2
          st.prevHandPos (handPass s inp st).sigs 0
          (dgPart (handPass s inp st).sigs st.prevHandPos oo))) ++
        (handPass s inp st).spawned := by
    unfold interactionResolve
    dsimp only
    unfold singleHandStep cleanupStep
    rw [shLoop_eq_map, doubleGrabStep_fst, List.map_map, List.map_map]
    rfl
  have hdgeq : (interactionResolve s st inp).dg =
      (doubleGrabStep (handPass s inp st).sigs st.prevHandPos st.objects).2 := rfl
  rw [hstore] at ho
  rcases List.mem_append.mp ho with hsnap | hspawn
  · obtain ⟨oo, hoo, rfl⟩ := List.mem_map.mp hsnap
    have hcore := grab_iff_core s (handPass s inp st).sigs st.prevHandPos st.objects
      hnodup oo hoo
    constructor
    · apply fourState_of_idx
      rw [(cleanupOne_fields _ _).2]
      rcases (shF_fields s _ st.prevHandPos (handPass s inp st).sigs 0
          (dgPart (handPass s inp st).sigs st.prevHandPos oo)).2 with h | h | ⟨j, _, hj2, h⟩
      · rcases dgPart_idx (handPass s inp st).sigs st.prevHandPos oo with h2 | h2
        · rw [h, h2]
          exact hwf oo hoo
        · rw [h, h2.1]
          left; rfl
      · rw [h]; left; rfl
      · rw [h]
        rw [hsiglen] at hj2
        have hjj : j < 2 := by omega
        interval_cases j
        · right; left; rfl
        · right; right; rfl
    · rw [hdgeq, hcore.1]
      exact hcore.2
  · have hsp := handLoop_spawned s inp st.objects st.prevHandPos inp.hands 0
      { spawned := [], sigs := [], wasPinching := st.wasPinching,
        lastShot := st.lastShot, nid := st.nextId, t := 0, events := [] } o hspawn
    rcases hsp with hx | ⟨hle, hf⟩
    · exact absurd hx (List.not_mem_nil o)
    · have hle2 : st.nextId ≤ o.id := hle
      have hnotdg : o.id ∉ (interactionResolve s st inp).dg := by
        rw [hdgeq]
        intro hcon
        obtain ⟨_, _, _, _, _, _, o2, ho2, _, hid2⟩ :=
          (doubleGrabStep_mem _ _ _ _).mp hcon
        have := hids o2 ho2
        omega
      constructor
      · apply fourState_of_idx
        rcases hf with hf | ⟨j, hj1, hj2, hj3, _⟩
        · left; exact hf.1
        · simp only [Nat.zero_add] at hj2
          have : j < 2 := lt_of_lt_of_le hj2 hhands
          interval_cases j
          · right; exact Or.inl hj3
          · right; right; exact hj3
      · simp only [hnotdg, iff_false]
        rcases hf with hf | ⟨j, _, _, hj3, hj4⟩
        · unfold grabStateOf
          rw [if_neg (by rw [hf.2]; simp)]
          simp
        · unfold grabStateOf
          rw [if_pos hj4, hj3]
          simp

def c4obj : Obj :=
  { id := 3, x := 100, y := 100, vx := 0, vy := 0, radius := 20, color := "#fff",
    isGrabbed := false, grabbedByHandIndex := none, wobblePhase := 0, createdAt := 0 }

def c4st : SimState :=
  { objects := [c4obj], prevHandPos := fun _ => none, wasPinching := fun _ => false,
    lastShot := 0, nextId := 4 }

def c4inp : FrameInput :=
  { hands := [], mouth := { centerX := 0, centerY := 0, width := 0, isOpen := false },
    now := 1000, width := 1000, height := 1000, rngS := fun _ => cRnd, rngF := fun _ => 0 }

/-- C4 witness: in a concrete one-object frame the surviving object is in one
of the four grab states, and it is not shared, matching the empty double-grab
set of the frame. -/
theorem C4_grab_state_invariant_witness :
    c4obj ∈ (interactionResolve initialSettings c4st c4inp).store ∧
    ((grabStateOf c4obj = GrabState.ungrabbed ∨ grabStateOf c4obj = GrabState.grabbedBy 0 ∨
      grabStateOf c4obj = GrabState.grabbedBy 1 ∨ grabStateOf c4obj = GrabState.shared) ∧
     (grabStateOf c4obj = GrabState.shared ↔
       c4obj.id ∈ (interactionResolve initialSettings c4st c4inp).dg)) := by
  have hmem : c4obj ∈ (interactionResolve initialSettings c4st c4inp).store := by
    rw [show (interactionResolve initialSettings c4st c4inp).store = [c4obj] from rfl]
    exact List.mem_singleton_self c4obj
  refine ⟨hmem, C4_grab_state_invariant initialSettings c4st c4inp
    (by simp [c4st, c4obj])
    (by intro o ho
        simp only [c4st, List.mem_singleton] at ho
        subst ho
        simp [c4obj, c4st])
    (by intro o ho
        simp only [c4st, List.mem_singleton] at ho
        subst ho
        simp [c4obj])
    (by simp [c4inp]) c4obj hmem⟩

/-! ## Claim C6: single-hand grab and drag -/

/-- The image of a snapshot object under the frame's grab resolution. -/
def resolveObj (s : GameSettings) (st : SimState) (inp : FrameInput) (o : Obj) : Obj :=
  cleanupOne (doubleGrabStep (handPass s inp st).sigs st.prevHandPos st.objects).2
    (shF s (doubleGrabStep (handPass s inp st).sigs st.prevHandPos st.objects).2
      st.prevHandPos (handPass s inp st).sigs 0
      (dgPart (handPass s inp st).sigs st.prevHandPos o))

lemma store_eq (s : GameSettings) (st : SimState) (inp : FrameInput) :
    (interactionResolve s st inp).store =
      st.objects.map (resolveObj s st inp) ++ (handPass s inp st).spawned := by
  unfold interactionResolve resolveObj
  dsimp only
  unfold singleHandStep cleanupStep
  rw [shLoop_eq_map, doubleGrabStep_fst, List.map_map, List.map_map]
  rfl

lemma handPass_sigs_one (s : GameSettings) (inp : FrameInput) (st : SimState)
    (h0 : HandRaw) (hh : inp.hands = [h0]) :
    (handPass s inp st).sigs = [mkSig s st.prevHandPos 0 h0] := by
  unfold handPass
  rw [hh, handLoop, handLoop, handStep_sigs]
  simp

lemma handPass_sigs_two (s : GameSettings) (inp : FrameInput) (st : SimState)
    (h0 h1 : HandRaw) (hh : inp.hands = [h0, h1]) :
    (handPass s inp st).sigs = [mkSig s st.prevHandPos 0 h0, mkSig s st.prevHandPos 1 h1] := by
  unfold handPass
  rw [hh, handLoop, handLoop, handLoop, handStep_sigs, handStep_sigs]
  simp

lemma dgPart_not_mem (sigs : List HandSig) (prev : ℕ → Option Pt) (objs : List Obj)
    (o : Obj) (ho : o ∈ objs) (h : o.id ∉ (doubleGrabStep sigs prev objs).2) :
    dgPart sigs prev o = o := by
  unfold dgPart
  cases hs0 : sigs.get? 0 with
  | none => rfl
  | some a =>
    cases hs1 : sigs.get? 1 with
    | none => rfl
    | some b =>
      dsimp only
      by_cases hp : (a.pinching = true ∧ b.pinching = true)
      · rw [if_pos hp]
        unfold dgTransform
        by_cases hc : dgCond a b o
        · exact absurd ((doubleGrabStep_mem sigs prev objs o.id).mpr
            ⟨a, b, hs0, hs1, hp.1, hp.2, o, ho, hc, rfl⟩) h
        · rw [if_neg hc]
      · rw [if_neg hp]

lemma shPinch_own (s : GameSettings) (dg : List ℕ) (h : HandSig) (p : Pt) (i : ℕ)
    (o : Obj) (hg : o.isGrabbed = true) (hidx : o.grabbedByHandIndex = some i)
    (hnd : o.id ∉ dg) :
    shPinch s dg h p i o =
      { o with x := h.x, y := h.y, vx := (h.x - p.x) * s.throwForce,
               vy := (h.y - p.y) * s.throwForce } := by
  unfold shPinch
  rw [if_neg hnd, if_pos ⟨hg, hidx⟩]

lemma shPinch_grab (s : GameSettings) (dg : List ℕ) (h : HandSig) (p : Pt) (i : ℕ)
    (o : Obj) (hg : o.isGrabbed = false) (hnd : o.id ∉ dg)
    (hdist : hyp (o.x - h.x) (o.y - h.y) < o.radius + 40) :
    shPinch s dg h p i o = { o with isGrabbed := true, grabbedByHandIndex := some i } := by
  unfold shPinch
  rw [if_neg hnd, if_neg (by simp [hg]), if_neg (by simp [hg]), if_pos hdist]

lemma shPinch_nograb (s : GameSettings) (dg : List ℕ) (h : HandSig) (p : Pt) (i : ℕ)
    (o : Obj) (hg : o.isGrabbed = false) (hnd : o.id ∉ dg)
    (hdist : ¬ hyp (o.x - h.x) (o.y - h.y) < o.radius + 40) :
    shPinch s dg h p i o = o := by
  unfold shPinch
  rw [if_neg hnd, if_neg (by simp [hg]), if_neg (by simp [hg]), if_neg hdist]

lemma shPinch_other (s : GameSettings) (dg : List ℕ) (h : HandSig) (p : Pt) (i j : ℕ)
    (o : Obj) (hg : o.isGrabbed = true) (hidx : o.grabbedByHandIndex = some j)
    (hne : j ≠ i) (hnd : o.id ∉ dg) :
    shPinch s dg h p i o = o := by
  unfold shPinch
  rw [if_neg hnd, if_neg (by simp [hidx, hne]), if_pos ⟨hg, by simp [hidx], by simp [hidx, hne]⟩]

lemma shRelease_other (dg : List ℕ) (i : ℕ) (o : Obj)
    (hidx : o.grabbedByHandIndex ≠ some i) :
    shRelease dg i o = o := by
  unfold shRelease
  rw [if_neg (fun hcon => hidx hcon.2.1)]

lemma shRelease_free (dg : List ℕ) (i : ℕ) (o : Obj) (hg : o.isGrabbed = false) :
    shRelease dg i o = o := by
  unfold shRelease
  rw [if_neg (fun hcon => by rw [hg] at hcon; exact absurd hcon.1 (by norm_num))]

lemma cleanupOne_grabbedBySome (dg : List ℕ) (o : Obj) (j : ℕ)
    (hidx : o.grabbedByHandIndex = some j) :
    cleanupOne dg o = o := by
  unfold cleanupOne
  rw [if_neg (fun hcon => by rw [hidx] at hcon; exact absurd hcon.1 (by simp))]

/-- C6 (amended): in a frame where hand i is pinching and has a recorded
previous position (the source skips a hand whose previous position is absent,
line 472), every free object outside the double-grab set whose center is
within radius + 40 of the pinch point ends the interaction resolution
exclusively grabbed by that hand; and an object already exclusively held by
that hand is moved to the pinch point with velocity equal to the hand's frame
displacement times throwForce. -/
theorem C6_grab_and_drag (s : GameSettings) (st : SimState) (inp : FrameInput)
    (i : ℕ) (hr : HandRaw) (p : Pt) (o : Obj)
    (hlen : inp.hands.length ≤ 2)
    (hhand : inp.hands.get? i = some hr)
    (hpin : (mkSig s st.prevHandPos i hr).pinching = true)
    (hprev : st.prevHandPos i = some p)
    (ho : o ∈ st.objects)
    (hndg : o.id ∉ (interactionResolve s st inp).dg) :
    (interactionResolve s st inp).store =
      st.objects.map (resolveObj s st inp) ++ (handPass s inp st).spawned ∧
    (o.isGrabbed = false →
      hyp (o.x - (mkSig s st.prevHandPos i hr).x) (o.y - (mkSig s st.prevHandPos i hr).y)
        < o.radius + 40 →
      (resolveObj s st inp o).isGrabbed = true ∧
      (resolveObj s st inp o).grabbedByHandIndex = some i ∧
      (resolveObj s st inp o).id = o.id) ∧
    (o.isGrabbed = true → o.grabbedByHandIndex = some i →
      resolveObj s st inp o =
        { o with x := (mkSig s st.prevHandPos i hr).x,
                 y := (mkSig s st.prevHandPos i hr).y,
                 vx := ((mkSig s st.prevHandPos i hr).x - p.x) * s.throwForce,
                 vy := ((mkSig s st.prevHandPos i hr).y - p.y) * s.throwForce }) := by
  have hnd0 : o.id ∉ (doubleGrabStep (handPass s inp st).sigs st.prevHandPos st.objects).2 :=
    hndg
  refine ⟨store_eq s st inp, ?_⟩
  rcases hshape : inp.hands with _ | ⟨a, rest1⟩
  · rw [hshape] at hhand
    simp at hhand
  rcases rest1 with _ | ⟨b, rest2⟩
  · -- one hand: i must be 0
    have hsigs := handPass_sigs_one s inp st a hshape
    rw [hsigs] at hnd0
    match i, hhand with
    | 0, hhand =>
      rw [hshape] at hhand
      obtain rfl : a = hr := by simpa using hhand
      have hpart : dgPart [mkSig s st.prevHandPos 0 a] st.prevHandPos o = o :=
        dgPart_not_mem _ _ _ o ho hnd0
      have hres : ∀ oz : Obj, oz.id ∉ (doubleGrabStep [mkSig s st.prevHandPos 0 a]
            st.prevHandPos st.objects).2 →
          shF s (doubleGrabStep [mkSig s st.prevHandPos 0 a] st.prevHandPos st.objects).2
            st.prevHandPos [mkSig s st.prevHandPos 0 a] 0 oz =
          shPinch s (doubleGrabStep [mkSig s st.prevHandPos 0 a] st.prevHandPos st.objects).2
            (mkSig s st.prevHandPos 0 a) p 0 oz := by
        intro oz _
        rw [shF, hprev]
        dsimp only
        rw [if_pos hpin, shF]
      constructor
      · intro hfree hdist
        have : resolveObj s st inp o =
            { o with isGrabbed := true, grabbedByHandIndex := some 0 } := by
          unfold resolveObj
          rw [hsigs, hpart, hres o hnd0, shPinch_grab s _ _ p 0 o hfree hnd0 hdist]
          exact cleanupOne_grabbedBySome _ _ 0 rfl
        rw [this]
        exact ⟨rfl, rfl, rfl⟩
      · intro hg hidx
        unfold resolveObj
        rw [hsigs, hpart, hres o hnd0, shPinch_own s _ _ p 0 o hg hidx hnd0]
        exact cleanupOne_grabbedBySome _ _ 0 (by rw [hidx])
    | n + 1, hhand =>
      rw [hshape] at hhand
      simp at hhand
  rcases rest2 with _ | ⟨c, rest3⟩
  swap
  · rw [hshape] at hlen
    simp at hlen
  -- two hands
  have hsigs := handPass_sigs_two s inp st a b hshape
  rw [hsigs] at hnd0
  have hget0 : ([mkSig s st.prevHandPos 0 a, mkSig s st.prevHandPos 1 b] :
      List HandSig).get? 0 = some (mkSig s st.prevHandPos 0 a) := rfl
  have hget1 : ([mkSig s st.prevHandPos 0 a, mkSig s st.prevHandPos 1 b] :
      List HandSig).get? 1 = some (mkSig s st.prevHandPos 1 b) := rfl
  have hpart : dgPart [mkSig s st.prevHandPos 0 a, mkSig s st.prevHandPos 1 b]
      st.prevHandPos o = o := dgPart_not_mem _ _ _ o ho hnd0
  match i, hhand with
  | 0, hhand =>
    rw [hshape] at hhand
    obtain rfl : a = hr := by simpa using hhand
    -- hand 0 acts first; hand 1 then leaves an object held by hand 0 alone
    have hstep1 : ∀ oz : Obj, oz.isGrabbed = true → oz.grabbedByHandIndex = some 0 →
        oz.id ∉ (doubleGrabStep [mkSig s st.prevHandPos 0 a, mkSig s st.prevHandPos 1 b]
          st.prevHandPos st.objects).2 →
        shF s (doubleGrabStep [mkSig s st.prevHandPos 0 a, mkSig s st.prevHandPos 1 b]
            st.prevHandPos st.objects).2 st.prevHandPos [mkSig s st.prevHandPos 1 b] 1 oz =
          oz := by
      intro oz hzg hzidx hznd
      rw [shF]
      cases hq : st.prevHandPos 1 with
      | none => dsimp only; rw [shF]
      | some q =>
        dsimp only
        by_cases hq1 : (mkSig s st.prevHandPos 1 b).pinching = true
        · rw [if_pos hq1, shPinch_other s _ _ q 1 0 oz hzg hzidx (by norm_num) hznd, shF]
        · rw [if_neg hq1, shRelease_other _ 1 oz (by rw [hzidx]; simp), shF]
    have hfirst : ∀ oz : Obj,
        shF s (doubleGrabStep [mkSig s st.prevHandPos 0 a, mkSig s st.prevHandPos 1 b]
            st.prevHandPos st.objects).2 st.prevHandPos
          [mkSig s st.prevHandPos 0 a, mkSig s st.prevHandPos 1 b] 0 oz =
        shF s (doubleGrabStep [mkSig s st.prevHandPos 0 a, mkSig s st.prevHandPos 1 b]
            st.prevHandPos st.objects).2 st.prevHandPos [mkSig s st.prevHandPos 1 b] 1
          (shPinch s (doubleGrabStep [mkSig s st.prevHandPos 0 a, mkSig s st.prevHandPos 1 b]
            st.prevHandPos st.objects).2 (mkSig s st.prevHandPos 0 a) p 0 oz) := by
      intro oz
      rw [shF, hprev]
      dsimp only
      rw [if_pos hpin]
    constructor
    · intro hfree hdist
      have : resolveObj s st inp o =
          { o with isGrabbed := true, grabbedByHandIndex := some 0 } := by
        unfold resolveObj
        rw [hsigs, hpart, hfirst o, shPinch_grab s _ _ p 0 o hfree hnd0 hdist,
          hstep1 { o with isGrabbed := true, grabbedByHandIndex := some 0 } rfl rfl hnd0]
        exact cleanupOne_grabbedBySome _ _ 0 rfl
      rw [this]
      exact ⟨rfl, rfl, rfl⟩
    · intro hg hidx
      unfold resolveObj
      rw [hsigs, hpart, hfirst o, shPinch_own s _ _ p 0 o hg hidx hnd0,
        hstep1 { o with x := (mkSig s st.prevHandPos 0 a).x,
                        y := (mkSig s st.prevHandPos 0 a).y,
                        vx := ((mkSig s st.prevHandPos 0 a).x - p.x) * s.throwForce,
                        vy := ((mkSig s st.prevHandPos 0 a).y - p.y) * s.throwForce }
          hg hidx hnd0]
      exact cleanupOne_grabbedBySome _ _ 0 (by rw [hidx])
  | 1, hhand =>
    rw [hshape] at hhand
    obtain rfl : b = hr := by simpa using hhand
    -- hand 0 acts first but leaves o alone, then hand 1 acts
    have hstep0_free : o.isGrabbed = false →
        hyp (o.x - (mkSig s st.prevHandPos 1 b).x) (o.y - (mkSig s st.prevHandPos 1 b).y)
          < o.radius + 40 →
        shF s (doubleGrabStep [mkSig s st.prevHandPos 0 a, mkSig s st.prevHandPos 1 b]
            st.prevHandPos st.objects).2 st.prevHandPos
          [mkSig s st.prevHandPos 0 a, mkSig s st.prevHandPos 1 b] 0 o =
        shF s (doubleGrabStep [mkSig s st.prevHandPos 0 a, mkSig s st.prevHandPos 1 b]
            st.prevHandPos st.objects).2 st.prevHandPos [mkSig s st.prevHandPos 1 b] 1 o := by
      intro hfree hdist
      rw [shF]
      cases hq : st.prevHandPos 0 with
      | none => dsimp only
      | some q =>
        dsimp only
        by_cases hq0 : (mkSig s st.prevHandPos 0 a).pinching = true
        · rw [if_pos hq0]
          have hd0 : ¬ hyp (o.x - (mkSig s st.prevHandPos 0 a).x)
              (o.y - (mkSig s st.prevHandPos 0 a).y) < o.radius + 40 := by
            intro hcon
            exact hnd0 ((doubleGrabStep_mem _ _ _ o.id).mpr
              ⟨mkSig s st.prevHandPos 0 a, mkSig s st.prevHandPos 1 b, hget0, hget1,
                hq0, hpin, o, ho, Or.inl ⟨hcon, hdist⟩, rfl⟩)
          rw [shPinch_nograb s _ _ q 0 o hfree hnd0 hd0]
        · rw [if_neg hq0, shRelease_free _ 0 o hfree]
    have hstep0_held : o.isGrabbed = true → o.grabbedByHandIndex = some 1 →
        shF s (doubleGrabStep [mkSig s st.prevHandPos 0 a, mkSig s st.prevHandPos 1 b]
            st.prevHandPos st.objects).2 st.prevHandPos
          [mkSig s st.prevHandPos 0 a, mkSig s st.prevHandPos 1 b] 0 o =
        shF s (doubleGrabStep [mkSig s st.prevHandPos 0 a, mkSig s st.prevHandPos 1 b]
            st.prevHandPos st.objects).2 st.prevHandPos [mkSig s st.prevHandPos 1 b] 1 o := by
      intro hg hidx
      rw [shF]
      cases hq : st.prevHandPos 0 with
      | none => dsimp only
      | some q =>
        dsimp only
        by_cases hq0 : (mkSig s st.prevHandPos 0 a).pinching = true
        · rw [if_pos hq0, shPinch_other s _ _ q 0 1 o hg hidx (by norm_num) hnd0]
        · rw [if_neg hq0, shRelease_other _ 0 o (by rw [hidx]; simp)]
    have hsecond : ∀ oz : Obj, oz.id ∉ (doubleGrabStep
          [mkSig s st.prevHandPos 0 a, mkSig s st.prevHandPos 1 b]
          st.prevHandPos st.objects).2 →
        shF s (doubleGrabStep [mkSig s st.prevHandPos 0 a, mkSig s st.prevHandPos 1 b]
            st.prevHandPos st.objects).2 st.prevHandPos [mkSig s st.prevHandPos 1 b] 1 oz =
        shPinch s (doubleGrabStep [mkSig s st.prevHandPos 0 a, mkSig s st.prevHandPos 1 b]
            st.prevHandPos st.objects).2 (mkSig s st.prevHandPos 1 b) p 1 oz := by
      intro oz _
      rw [shF, hprev]
      dsimp only
      rw [if_pos hpin, shF]
    constructor
    · intro hfree hdist
      have : resolveObj s st inp o =
          { o with isGrabbed := true, grabbedByHandIndex := some 1 } := by
        unfold resolveObj
        rw [hsigs, hpart, hstep0_free hfree hdist, hsecond o hnd0,
          shPinch_grab s _ _ p 1 o hfree hnd0 hdist]
        exact cleanupOne_grabbedBySome _ _ 1 rfl
      rw [this]
      exact ⟨rfl, rfl, rfl⟩
    · intro hg hidx
      unfold resolveObj
      rw [hsigs, hpart, hstep0_held hg hidx, hsecond o hnd0,
        shPinch_own s _ _ p 1 o hg hidx hnd0]
      exact cleanupOne_grabbedBySome _ _ 1 (by rw [hidx])
  | n + 2, hhand =>
    rw [hshape] at hhand
    simp at hhand

lemma cleanupOne_free (dg : List ℕ) (o : Obj) (h : o.isGrabbed = false) :
    cleanupOne dg o = o := by
  unfold cleanupOne
  rw [if_neg (fun hcon => by rw [h] at hcon; exact absurd hcon.2.1 (by simp))]

def c6hr : HandRaw := { ix := 95, iy := 100, tx := 105, ty := 100, isGun := false }

def c6obj : Obj :=
  { id := 5, x := 110, y := 100, vx := 0, vy := 0, radius := 20, color := "#fff",
    isGrabbed := false, grabbedByHandIndex := none, wobblePhase := 0, createdAt := 0 }

def c6st : SimState :=
  { objects := [c6obj], prevHandPos := fun _ => none, wasPinching := fun _ => false,
    lastShot := 0, nextId := 6 }

def c6inp : FrameInput :=
  { hands := [c6hr], mouth := { centerX := 0, centerY := 0, width := 0, isOpen := false },
    now := 1000, width := 1000, height := 1000, rngS := fun _ => cRnd, rngF := fun _ => 0 }

/-- C6 counterexample: hand 0 is pinching at (100,100), a free object of
radius 20 sits at (110,100), well within radius + 40 — but the hand has no
recorded previous position (its first detected frame), so the source's
single-hand pass skips it entirely (line 472) and the object stays
ungrabbed at the end of the frame's interaction resolution. -/
theorem C6_counterexample :
    (mkSig initialSettings c6st.prevHandPos 0 c6hr).pinching = true ∧
    (mkSig initialSettings c6st.prevHandPos 0 c6hr).x = 100 ∧
    (mkSig initialSettings c6st.prevHandPos 0 c6hr).y = 100 ∧
    c6st.prevHandPos 0 = none ∧
    hyp (c6obj.x - 100) (c6obj.y - 100) < c6obj.radius + 40 ∧
    c6obj.isGrabbed = false ∧
    (interactionResolve initialSettings c6st c6inp).dg = [] ∧
    (interactionResolve initialSettings c6st c6inp).store.map
      (fun o => (o.id, o.isGrabbed, o.grabbedByHandIndex)) = [(5, false, none)] := by
  have hd10 : hyp (-10 : ℝ) 0 = 10 := by
    rw [hyp_eval_nonpos (-10) (by norm_num)]; norm_num
  have hpinch : (mkSig initialSettings c6st.prevHandPos 0 c6hr).pinching = true := by
    unfold mkSig
    dsimp only
    rw [decide_eq_true_eq]
    simp only [c6hr]
    rw [show (95 : ℝ) - 105 = -10 by norm_num, show (100 : ℝ) - 100 = 0 by norm_num, hd10]
    norm_num [initialSettings]
  have hsig := handPass_sigs_one initialSettings c6inp c6st c6hr rfl
  have hdg2 : (doubleGrabStep [mkSig initialSettings c6st.prevHandPos 0 c6hr]
      c6st.prevHandPos c6st.objects).2 = [] := rfl
  have hdg : (interactionResolve initialSettings c6st c6inp).dg = [] := by
    show (doubleGrabStep (handPass initialSettings c6inp c6st).sigs
      c6st.prevHandPos c6st.objects).2 = []
    rw [hsig, hdg2]
  have hsp : (handPass initialSettings c6inp c6st).spawned = [] := by
    unfold handPass
    rw [show c6inp.hands = [c6hr] from rfl, handLoop, handLoop]
    unfold handStep
    dsimp only
    rw [if_neg (fun hcon => by
      rw [show c6hr.isGun = false from rfl] at hcon
      exact absurd hcon.1 (by simp))]
    rw [if_neg (fun hcon => by
      rw [show c6inp.mouth.isOpen = false from rfl] at hcon
      exact absurd hcon.1 (by simp))]
  have hres : resolveObj initialSettings c6st c6inp c6obj = c6obj := by
    unfold resolveObj
    rw [hsig]
    rw [dgPart_not_mem [mkSig initialSettings c6st.prevHandPos 0 c6hr] c6st.prevHandPos
      c6st.objects c6obj (by simp [c6st]) (by rw [hdg2]; simp)]
    rw [shF, show c6st.prevHandPos 0 = none from rfl]
    dsimp only
    rw [shF]
    exact cleanupOne_free _ c6obj rfl
  refine ⟨hpinch, by unfold mkSig; dsimp only; norm_num [c6hr],
    by unfold mkSig; dsimp only; norm_num [c6hr], rfl, ?_, rfl, hdg, ?_⟩
  · simp only [c6obj]
    rw [show (110 : ℝ) - 100 = 10 by norm_num, show (100 : ℝ) - 100 = 0 by norm_num,
      hyp_eval_nonneg 10 (by norm_num)]
    norm_num
  · rw [store_eq, hsp]
    rw [show c6st.objects = [c6obj] from rfl, List.map_cons, List.map_nil,
      List.append_nil, hres]
    simp [c6obj]

def c6wst : SimState :=
  { objects := [c6obj],
    prevHandPos := fun i => if i = 0 then some { x := 100, y := 100 } else none,
    wasPinching := fun _ => false, lastShot := 0, nextId := 6 }

/-- C6 witness: same hand and object, but the hand has a previous position on
record — the free object within radius + 40 of the pinch point becomes
grabbed by hand 0. -/
theorem C6_grab_and_drag_witness :
    (resolveObj initialSettings c6wst c6inp c6obj).isGrabbed = true ∧
    (resolveObj initialSettings c6wst c6inp c6obj).grabbedByHandIndex = some 0 := by
  have hpinch : (mkSig initialSettings c6wst.prevHandPos 0 c6hr).pinching = true := by
    unfold mkSig
    dsimp only
    rw [decide_eq_true_eq]
    simp only [c6hr]
    rw [show (95 : ℝ) - 105 = -10 by norm_num, show (100 : ℝ) - 100 = 0 by norm_num]
    rw [hyp_eval_nonpos (-10) (by norm_num)]
    norm_num [initialSettings]
  have hndg : c6obj.id ∉ (interactionResolve initialSettings c6wst c6inp).dg := by
    have hdg : (interactionResolve initialSettings c6wst c6inp).dg = [] := by
      show (doubleGrabStep (handPass initialSettings c6inp c6wst).sigs
        c6wst.prevHandPos c6wst.objects).2 = []
      rw [handPass_sigs_one initialSettings c6inp c6wst c6hr rfl,
        show (doubleGrabStep [mkSig initialSettings c6wst.prevHandPos 0 c6hr]
          c6wst.prevHandPos c6wst.objects).2 = [] from rfl]
    rw [hdg]
    simp
  have hx : (mkSig initialSettings c6wst.prevHandPos 0 c6hr).x = 100 := by
    unfold mkSig; dsimp only; norm_num [c6hr]
  have hy : (mkSig initialSettings c6wst.prevHandPos 0 c6hr).y = 100 := by
    unfold mkSig; dsimp only; norm_num [c6hr]
  have h := C6_grab_and_drag initialSettings c6wst c6inp 0 c6hr { x := 100, y := 100 }
    c6obj (by simp [c6inp]) rfl hpinch rfl (by simp [c6wst]) hndg
  have hgrab := h.2.1 rfl (by
    rw [hx, hy]
    simp only [c6obj]
    rw [show (110 : ℝ) - 100 = 10 by norm_num, show (100 : ℝ) - 100 = 0 by norm_num,
      hyp_eval_nonneg 10 (by norm_num)]
    norm_num)
  exact ⟨hgrab.1, hgrab.2.1⟩

/-! ## Claim C7: gun shot -/

lemma spawnLoop_full (w h now : ℝ) (rngS : ℕ → SpawnRnd) (existing : List Obj)
    (count : ℕ) (x? y? vx? vy? radius? : Option ℝ) (color? : Option String)
    (grabbedBy? : Option ℕ) (fuel : ℕ) (acc : List Obj) (nid t : ℕ)
    (hful : ¬ acc.length < count) :
    spawnLoop w h now rngS existing count x? y? vx? vy? radius? color? grabbedBy?
      fuel acc nid t = (acc, nid, t) := by
  cases fuel with
  | zero => rw [spawnLoop]
  | succ f => rw [spawnLoop, if_neg hful]

/-- A count-1 fixed-position spawn consumes one attempt and one random record
and places exactly the one requested object. -/
lemma spawnObjects_one_fixed (w h now : ℝ) (rngS : ℕ → SpawnRnd) (existing : List Obj)
    (fx fy : ℝ) (vx? vy? : Option ℝ) (r : ℝ) (color? : Option String)
    (grabbedBy? : Option ℕ) (nid t : ℕ) :
    spawnObjects w h now rngS existing 1 (some fx) (some fy) vx? vy? (some r)
      color? grabbedBy? nid t =
      ([mkSpawned nid now (rngS t) fx fy vx? vy? r color? grabbedBy?], nid + 1, t + 1) := by
  unfold spawnObjects
  show spawnLoop w h now rngS existing 1 (some fx) (some fy) vx? vy? (some r)
    color? grabbedBy? (49 + 1) [] nid t = _
  rw [spawnLoop]
  rw [if_pos (show ([] : List Obj).length < 1 by decide)]
  dsimp only
  rw [if_neg (show ¬ ((some fx).isNone = true ∨ (some fy).isNone = true) by simp)]
  exact spawnLoop_full w h now rngS existing 1 (some fx) (some fy) vx? vy? (some r)
    color? grabbedBy? 49 _ (nid + 1) (t + 1) (by simp)

/-- C7 (amended): in any frame, if hand i is in gun pose, its signal's
vertical pinch velocity is below -15, and strictly more than 300ms have
elapsed since the last shot (the source tests now - lastShot > 300, so an
elapsed time of exactly 300ms is not enough), then the hand pass appends
exactly one gun projectile to the spawn batch: an object at the index
fingertip with velocity (0,-25), radius 10, ungrabbed and owned by no hand.
It follows the at most one mouth-spawned object of the same hand iteration
(mag, empty whenever the mouth is closed), and the cooldown timer resets to
the current frame time. -/
theorem C7_gun_shot (s : GameSettings) (inp : FrameInput) (snapshot : List Obj)
    (prev : ℕ → Option Pt) (i : ℕ) (hr : HandRaw) (st : HPSt)
    (hgun : hr.isGun = true)
    (hvel : (mkSig s prev i hr).velY < -15)
    (hcool : inp.now - st.lastShot > 300) :
    ∃ (mag : List Obj) (k : ℕ),
      (handStep s inp snapshot prev i hr st).spawned =
        st.spawned ++ mag ++ [mkSpawned (st.nid + k) inp.now (inp.rngS (st.t + k))
          hr.ix hr.iy (some 0) (some (-25)) 10 (some "#FFD700") none] ∧
      mag.length = k ∧ k ≤ 1 ∧
      (inp.mouth.isOpen = false → mag = [] ∧ k = 0) ∧
      (handStep s inp snapshot prev i hr st).lastShot = inp.now ∧
      (mkSpawned (st.nid + k) inp.now (inp.rngS (st.t + k)) hr.ix hr.iy
        (some 0) (some (-25)) 10 (some "#FFD700") none).x = hr.ix ∧
      (mkSpawned (st.nid + k) inp.now (inp.rngS (st.t + k)) hr.ix hr.iy
        (some 0) (some (-25)) 10 (some "#FFD700") none).y = hr.iy ∧
      (mkSpawned (st.nid + k) inp.now (inp.rngS (st.t + k)) hr.ix hr.iy
        (some 0) (some (-25)) 10 (some "#FFD700") none).vx = 0 ∧
      (mkSpawned (st.nid + k) inp.now (inp.rngS (st.t + k)) hr.ix hr.iy
        (some 0) (some (-25)) 10 (some "#FFD700") none).vy = -25 ∧
      (mkSpawned (st.nid + k) inp.now (inp.rngS (st.t + k)) hr.ix hr.iy
        (some 0) (some (-25)) 10 (some "#FFD700") none).radius = 10 ∧
      (mkSpawned (st.nid + k) inp.now (inp.rngS (st.t + k)) hr.ix hr.iy
        (some 0) (some (-25)) 10 (some "#FFD700") none).isGrabbed = false ∧
      (mkSpawned (st.nid + k) inp.now (inp.rngS (st.t + k)) hr.ix hr.iy
        (some 0) (some (-25)) 10 (some "#FFD700") none).grabbedByHandIndex = none := by
  by_cases hm : (inp.mouth.isOpen = true ∧ (mkSig s prev i hr).pinching = true ∧
      ¬ st.wasPinching i = true ∧
      hyp ((mkSig s prev i hr).x - inp.mouth.centerX)
        ((mkSig s prev i hr).y - inp.mouth.centerY) < inp.mouth.width * 2)
  · have hboth : (handStep s inp snapshot prev i hr st).spawned =
        st.spawned ++ [mkSpawned st.nid inp.now (inp.rngS st.t) (mkSig s prev i hr).x
          (mkSig s prev i hr).y (some 0) (some 0) 45 none (some i)] ++
        [mkSpawned (st.nid + 1) inp.now (inp.rngS (st.t + 1)) hr.ix hr.iy
          (some 0) (some (-25)) 10 (some "#FFD700") none] ∧
        (handStep s inp snapshot prev i hr st).lastShot = inp.now := by
      unfold handStep
      dsimp only
      rw [if_pos hm, spawnObjects_one_fixed inp.width inp.height inp.now inp.rngS
        (snapshot ++ st.spawned) (mkSig s prev i hr).x (mkSig s prev i hr).y
        (some 0) (some 0) 45 none (some i) st.nid st.t]
      dsimp only
      rw [if_pos (⟨hgun, hvel, hcool⟩ : hr.isGun = true ∧ (mkSig s prev i hr).velY < -15 ∧
        inp.now - st.lastShot > 300)]
      rw [spawnObjects_one_fixed]
      exact ⟨rfl, rfl⟩
    exact ⟨[mkSpawned st.nid inp.now (inp.rngS st.t) (mkSig s prev i hr).x
        (mkSig s prev i hr).y (some 0) (some 0) 45 none (some i)], 1, hboth.1, rfl, le_rfl,
      fun hmo => absurd hm.1 (by rw [hmo]; simp), hboth.2,
      rfl, rfl, rfl, rfl, rfl, rfl, rfl⟩
  · have hboth : (handStep s inp snapshot prev i hr st).spawned =
        st.spawned ++ [mkSpawned st.nid inp.now (inp.rngS st.t) hr.ix hr.iy
          (some 0) (some (-25)) 10 (some "#FFD700") none] ∧
        (handStep s inp snapshot prev i hr st).lastShot = inp.now := by
      unfold handStep
      dsimp only
      rw [if_neg hm]
      rw [if_pos (⟨hgun, hvel, hcool⟩ : hr.isGun = true ∧ (mkSig s prev i hr).velY < -15 ∧
        inp.now - st.lastShot > 300)]
      rw [spawnObjects_one_fixed]
      exact ⟨rfl, rfl⟩
    refine ⟨[], 0, ?_, rfl, Nat.zero_le 1, fun hmo => ⟨rfl, rfl⟩, hboth.2,
      rfl, rfl, rfl, rfl, rfl, rfl, rfl⟩
    rw [hboth.1]
    simp

def c7hr : HandRaw := { ix := 50, iy := 100, tx := 50, ty := 100, isGun := true }

def c7prev : ℕ → Option Pt := fun _ => some { x := 50, y := 120 }

def c7inp : FrameInput :=
  { hands := [c7hr], mouth := { centerX := 0, centerY := 0, width := 0, isOpen := false },
    now := 1000, width := 1000, height := 1000, rngS := fun _ => cRnd, rngF := fun _ => 0 }

def c7st0 : HPSt :=
  { spawned := [], sigs := [], wasPinching := fun _ => false, lastShot := 500,
    nid := 0, t := 0, events := [] }

/-- C7 witness: gun pose, downward pinch-point history giving vertical velocity
-20, 500ms since the last shot at frame time 1000 — the gold projectile spawns
at the fingertip and the cooldown resets to 1000. -/
theorem C7_gun_shot_witness :
    (handStep initialSettings c7inp [] c7prev 0 c7hr c7st0).spawned =
      [mkSpawned 0 1000 cRnd 50 100 (some 0) (some (-25)) 10 (some "#FFD700") none] ∧
    (handStep initialSettings c7inp [] c7prev 0 c7hr c7st0).lastShot = 1000 ∧
    (mkSpawned 0 1000 cRnd 50 100 (some 0) (some (-25)) 10 (some "#FFD700") none).vy = -25 ∧
    (mkSpawned 0 1000 cRnd 50 100 (some 0) (some (-25)) 10
      (some "#FFD700") none).isGrabbed = false := by
  have hvel : (mkSig initialSettings c7prev 0 c7hr).velY < -15 := by
    have h20 : (mkSig initialSettings c7prev 0 c7hr).velY = -20 := by
      unfold mkSig
      dsimp only
      rw [show c7prev 0 = some { x := 50, y := 120 } from rfl]
      dsimp only
      norm_num [c7hr]
    rw [h20]; norm_num
  have hcool : c7inp.now - c7st0.lastShot > 300 := by
    rw [show c7inp.now = (1000 : ℝ) from rfl, show c7st0.lastShot = (500 : ℝ) from rfl]
    norm_num
  obtain ⟨mag, k, hsp, hlen, hk1, hclosed, hshot, hfx, hfy, hfvx, hfvy, hfr, hfg, hfb⟩ :=
    C7_gun_shot initialSettings c7inp [] c7prev 0 c7hr c7st0 rfl hvel hcool
  obtain ⟨hmag, hk⟩ := hclosed rfl
  subst hmag
  subst hk
  refine ⟨?_, ?_, hfvy, hfg⟩
  · rw [hsp]; rfl
  · rw [hshot]; rfl

def c7cinp : FrameInput :=
  { hands := [c7hr], mouth := { centerX := 0, centerY := 0, width := 0, isOpen := false },
    now := 1300, width := 1000, height := 1000, rngS := fun _ => cRnd, rngF := fun _ => 0 }

def c7st1 : HPSt :=
  { spawned := [], sigs := [], wasPinching := fun _ => false, lastShot := 1000,
    nid := 0, t := 0, events := [] }

/-- C7 counterexample: gun pose, flick velocity -20, and exactly 300ms since
the last shot — "at least 300ms have elapsed" holds, yet the source's strict
comparison now - lastShot > 300 fails, so nothing spawns and the cooldown
timer keeps its old value. -/
theorem C7_counterexample :
    c7hr.isGun = true ∧
    (mkSig initialSettings c7prev 0 c7hr).velY < -15 ∧
    c7cinp.now - c7st1.lastShot = 300 ∧
    (handStep initialSettings c7cinp [] c7prev 0 c7hr c7st1).spawned = [] ∧
    (handStep initialSettings c7cinp [] c7prev 0 c7hr c7st1).lastShot = c7st1.lastShot := by
  have hvel : (mkSig initialSettings c7prev 0 c7hr).velY < -15 := by
    have h20 : (mkSig initialSettings c7prev 0 c7hr).velY = -20 := by
      unfold mkSig
      dsimp only
      rw [show c7prev 0 = some { x := 50, y := 120 } from rfl]
      dsimp only
      norm_num [c7hr]
    rw [h20]; norm_num
  have hC1 : ¬ (c7cinp.mouth.isOpen = true ∧
      (mkSig initialSettings c7prev 0 c7hr).pinching = true ∧
      ¬ c7st1.wasPinching 0 = true ∧
      hyp ((mkSig initialSettings c7prev 0 c7hr).x - c7cinp.mouth.centerX)
        ((mkSig initialSettings c7prev 0 c7hr).y - c7cinp.mouth.centerY) <
        c7cinp.mouth.width * 2) := fun hcon => by
    rw [show c7cinp.mouth.isOpen = false from rfl] at hcon
    exact absurd hcon.1 (by simp)
  have hC2 : ¬ (c7hr.isGun = true ∧ (mkSig initialSettings c7prev 0 c7hr).velY < -15 ∧
      c7cinp.now - c7st1.lastShot > 300) := fun hcon => by
    have h3 := hcon.2.2
    rw [show c7cinp.now = (1300 : ℝ) from rfl,
      show c7st1.lastShot = (1000 : ℝ) from rfl] at h3
    norm_num at h3
  have hs : (handStep initialSettings c7cinp [] c7prev 0 c7hr c7st1).spawned = [] ∧
      (handStep initialSettings c7cinp [] c7prev 0 c7hr c7st1).lastShot = c7st1.lastShot := by
    unfold handStep
    dsimp only
    rw [if_neg hC1, if_neg hC2]
    exact ⟨rfl, rfl⟩
  refine ⟨rfl, hvel, ?_, hs.1, hs.2⟩
  rw [show c7cinp.now = (1300 : ℝ) from rfl, show c7st1.lastShot = (1000 : ℝ) from rfl]
  norm_num

/-! ## Claim C1: step order of the interaction resolver -/

lemma handStep_events (s : GameSettings) (inp : FrameInput) (snapshot : List Obj)
    (prev : ℕ → Option Pt) (i : ℕ) (hr : HandRaw) (st0 : HPSt) :
    ∃ add, (handStep s inp snapshot prev i hr st0).events = st0.events ++ add ∧
      ∀ e ∈ add, e.isSpawn = true := by
  unfold handStep
  dsimp only
  split_ifs
  · refine ⟨[Ev.spawnMouth i, Ev.spawnGun i], by simp, ?_⟩
    intro e he
    simp at he
    rcases he with rfl | rfl <;> rfl
  · refine ⟨[Ev.spawnMouth i], by simp, ?_⟩
    intro e he
    rw [List.mem_singleton] at he
    subst he
    rfl
  · refine ⟨[Ev.spawnGun i], by simp, ?_⟩
    intro e he
    rw [List.mem_singleton] at he
    subst he
    rfl
  · exact ⟨[], by simp, fun e he => absurd he (List.not_mem_nil e)⟩

lemma handLoop_events (s : GameSettings) (inp : FrameInput) (snapshot : List Obj)
    (prev : ℕ → Option Pt) :
    ∀ (hl : List HandRaw) (i : ℕ) (st0 : HPSt),
      ∃ add, (handLoop s inp snapshot prev hl i st0).events = st0.events ++ add ∧
        ∀ e ∈ add, e.isSpawn = true := by
  intro hl
  induction hl with
  | nil =>
    intro i st0
    refine ⟨[], ?_, fun e he => absurd he (List.not_mem_nil e)⟩
    rw [handLoop, List.append_nil]
  | cons hr rest ih =>
    intro i st0
    obtain ⟨a1, he1, hs1⟩ := handStep_events s inp snapshot prev i hr st0
    obtain ⟨a2, he2, hs2⟩ := ih (i + 1) (handStep s inp snapshot prev i hr st0)
    refine ⟨a1 ++ a2, ?_, ?_⟩
    · rw [handLoop, he2, he1, List.append_assoc]
    · intro e he
      rcases List.mem_append.mp he with h | h
      · exact hs1 e h
      · exact hs2 e h

/-- C1 (amended): the interaction resolver of one frame runs the
gesture-triggered spawns (mouth spawn and gun shot) first, inside the
per-hand iteration, and only then double-grab detection, single-hand
grab/drag/release, stale shared-grab cleanup and previous-position
recording, in that order: every frame trace is a list of spawn events
followed by exactly [doubleGrab, singleHand, cleanup, recordPrev].  The
gesture-triggered spawns therefore run before the three grab-resolution
steps, not after them. -/
theorem C1_step_order (s : GameSettings) (st : SimState) (inp : FrameInput) :
    ∃ pre, (interactionResolve s st inp).trace =
        pre ++ [Ev.doubleGrab, Ev.singleHand, Ev.cleanup, Ev.recordPrev] ∧
      ∀ e ∈ pre, e.isSpawn = true := by
  obtain ⟨add, he, hs⟩ := handLoop_events s inp st.objects st.prevHandPos inp.hands 0
    { spawned := [], sigs := [], wasPinching := st.wasPinching,
      lastShot := st.lastShot, nid := st.nextId, t := 0, events := [] }
  refine ⟨add, ?_, hs⟩
  show (handPass s inp st).events ++
      [Ev.doubleGrab, Ev.singleHand, Ev.cleanup, Ev.recordPrev] =
    add ++ [Ev.doubleGrab, Ev.singleHand, Ev.cleanup, Ev.recordPrev]
  unfold handPass
  rw [he]
  rfl

def c1hr : HandRaw := { ix := 95, iy := 100, tx := 105, ty := 100, isGun := false }

def c1st : SimState :=
  { objects := [], prevHandPos := fun _ => none, wasPinching := fun _ => false,
    lastShot := 0, nextId := 0 }

def c1inp : FrameInput :=
  { hands := [c1hr], mouth := { centerX := 100, centerY := 100, width := 50, isOpen := true },
    now := 0, width := 1000, height := 1000, rngS := fun _ => cRnd, rngF := fun _ => 0 }

/-- The step order asserted by the claim, stated over frame traces: first the
three grab-resolution steps, then the gesture-triggered spawns, then the
previous-position recording. -/
def claimedOrder (tr : List Ev) : Prop :=
  ∃ spawns : List Ev, (∀ e ∈ spawns, e.isSpawn = true) ∧
    tr = [Ev.doubleGrab, Ev.singleHand, Ev.cleanup] ++ spawns ++ [Ev.recordPrev]

/-- C1 counterexample: a frame with the mouth open and a hand newly pinching
near the mouth center produces the trace [spawnMouth 0, doubleGrab,
singleHand, cleanup, recordPrev] — the spawn event precedes the three
grab-resolution steps, so the claimed order (grab steps first, then
gesture-triggered spawns, then recording) does not hold of this frame. -/
theorem C1_counterexample :
    (interactionResolve initialSettings c1st c1inp).trace =
      [Ev.spawnMouth 0, Ev.doubleGrab, Ev.singleHand, Ev.cleanup, Ev.recordPrev] ∧
    ¬ claimedOrder (interactionResolve initialSettings c1st c1inp).trace := by
  have hd10 : hyp (-10 : ℝ) 0 = 10 := by
    rw [hyp_eval_nonpos (-10) (by norm_num)]; norm_num
  have hpinch : (mkSig initialSettings c1st.prevHandPos 0 c1hr).pinching = true := by
    unfold mkSig
    dsimp only
    rw [decide_eq_true_eq]
    simp only [c1hr]
    rw [show (95 : ℝ) - 105 = -10 by norm_num, show (100 : ℝ) - 100 = 0 by norm_num, hd10]
    norm_num [initialSettings]
  have hx : (mkSig initialSettings c1st.prevHandPos 0 c1hr).x = 100 := by
    unfold mkSig; dsimp only; norm_num [c1hr]
  have hy : (mkSig initialSettings c1st.prevHandPos 0 c1hr).y = 100 := by
    unfold mkSig; dsimp only; norm_num [c1hr]
  have hwasp : ¬ c1st.wasPinching 0 = true := by
    rw [show c1st.wasPinching 0 = false from rfl]; simp
  have hdist : hyp ((mkSig initialSettings c1st.prevHandPos 0 c1hr).x - c1inp.mouth.centerX)
      ((mkSig initialSettings c1st.prevHandPos 0 c1hr).y - c1inp.mouth.centerY) <
      c1inp.mouth.width * 2 := by
    rw [hx, hy, show c1inp.mouth.centerX = (100 : ℝ) from rfl,
      show c1inp.mouth.centerY = (100 : ℝ) from rfl,
      show (100 : ℝ) - 100 = 0 by norm_num, hyp_eval_nonneg 0 le_rfl,
      show c1inp.mouth.width = (50 : ℝ) from rfl]
    norm_num
  have hev : (handPass initialSettings c1inp c1st).events = [Ev.spawnMouth 0] := by
    unfold handPass
    rw [show c1inp.hands = [c1hr] from rfl, handLoop, handLoop]
    unfold handStep
    dsimp only
    rw [if_neg (fun hcon => by
      rw [show c1hr.isGun = false from rfl] at hcon
      exact absurd hcon.1 (by simp))]
    rw [if_pos (⟨rfl, hpinch, hwasp, hdist⟩ :
      c1inp.mouth.isOpen = true ∧
      (mkSig initialSettings c1st.prevHandPos 0 c1hr).pinching = true ∧
      ¬ c1st.wasPinching 0 = true ∧
      hyp ((mkSig initialSettings c1st.prevHandPos 0 c1hr).x - c1inp.mouth.centerX)
        ((mkSig initialSettings c1st.prevHandPos 0 c1hr).y - c1inp.mouth.centerY) <
        c1inp.mouth.width * 2)]
    rfl
  have htr : (interactionResolve initialSettings c1st c1inp).trace =
      [Ev.spawnMouth 0, Ev.doubleGrab, Ev.singleHand, Ev.cleanup, Ev.recordPrev] := by
    show (handPass initialSettings c1inp c1st).events ++
      [Ev.doubleGrab, Ev.singleHand, Ev.cleanup, Ev.recordPrev] = _
    rw [hev]
    rfl
  refine ⟨htr, ?_⟩
  rintro ⟨spawns, hsp, heq⟩
  rw [htr] at heq
  simp at heq

end

end HandSpace
